import Mathlib

/-!
# Gelato network: deployment configuration and buidler tasks

A shallow embedding of

* `buidler/config/networks/kovan/kovan.contracts.js`
* `buidler/config/networks/rinkeby/rinkeby.contracts.js`
* `buidler/config/networks/rinkeby/address_book/rinkeby.addressBook.js`
* `buidler/tasks/gelato/core/gelato_providers/task.multiProvide.js`
* `scripts/buidler_tasks/.../sTask.defaultpayload.ActionBzxPtokenMintWithToken.js`

The configuration tables are literal data.  The two tasks are embedded as
functions from the answers of their external collaborators (signer list,
sub-tasks, contract call, receipt) to the sequence of observable events they
produce together with the way the process ends.
-/

set_option autoImplicit false

namespace Gelato

/-! ## Network configuration -/

namespace kovan

/-- The array exported by `kovan.contracts.js`, in source order. -/
def contracts : List String := [
  "ActionBzxPtokenBurnToToken",
  "ActionBzxPtokenMintWithToken",
  "ActionERC20Transfer",
  "ActionERC20TransferFrom",
  "ActionKyberTradeKovan",
  "ActionMultiMintForConditionTimestampPassed",
  "ActionRebalancePortfolioKovan",
  "ActionChainedTimedERC20TransferFromKovan",
  "ActionChainedRebalancePortfolioKovan",
  "ScriptEnterPortfolioRebalancing",
  "ConditionBalance",
  "ConditionFearGreedIndex",
  "ConditionKyberRateKovan",
  "ConditionTimestampPassed",
  "GelatoCore",
  "ProviderModuleGelatoUserProxy",
  "ProviderModuleGnosisSafeProxy",
  "GelatoUserProxyFactory",
  "ScriptGnosisSafeEnableGelatoCore",
  "ScriptGnosisSafeEnableGelatoCoreAndMint",
  "ScriptEnterPortfolioRebalancingKovan",
  "ScriptExitRebalancePortfolioKovan",
  "MockConditionDummy",
  "MockActionDummy",
  "MockActionChainedDummy"
]

end kovan

namespace rinkeby

/-- The array exported by `rinkeby.contracts.js`, in source order. -/
def contracts : List String := [
  "ActionBzxPtokenBurnToToken",
  "ActionBzxPtokenMintWithToken",
  "ActionERC20Transfer",
  "ActionERC20TransferFrom",
  "ActionKyberTradeRinkeby",
  "ActionMultiMintForConditionTimestampPassed",
  "ActionRebalancePortfolioRinkeby",
  "ActionWithdrawBatchExchangeRinkeby",
  "ActionChainedTimedERC20TransferFromRinkeby",
  "ActionChainedRebalancePortfolioRinkeby",
  "GelatoCore",
  "ConditionBalance",
  "ConditionFearGreedIndex",
  "ConditionKyberRateRinkeby",
  "ConditionTimestampPassed",
  "ScriptGnosisSafeEnableGelatoCore",
  "ScriptGnosisSafeEnableGelatoCoreAndMint",
  "ScriptEnterPortfolioRebalancingRinkeby",
  "ScriptExitRebalancePortfolioRinkeby"
]

end rinkeby

/-! ## Address book -/

/-- A name-to-address object literal: its properties in source order. -/
abbrev AddressTable := List (String × String)

namespace rinkeby

/-- The object exported by `rinkeby.addressBook.js`, properties in source
order.  The three tables it imports from sibling modules (`eoas`, `erc20s`,
`userProxies`) are parameters. -/
def addressBook (eoas erc20s userProxies : AddressTable) : List (String × AddressTable) := [
  ("EOA", eoas),
  ("erc20", erc20s),
  ("gelatoExecutor", [
    ("default", "0xa5A98a6AD379C7B578bD85E35A3eC28AD72A336b")]),
  ("gelatoGasPriceOracle", [
    ("chainlink", "0xEc2BCB887d7E50d06AeE7b1b5C79eA7816d5e167")]),
  ("gelatoProvider", [
    ("default", "0x518eAa8f962246bCe2FA49329Fe998B66d67cbf8")]),
  ("gnosisProtocol", [
    ("batchExchange", "0xC576eA7bd102F7E476368a5E98FA455d1Ea34dE2")]),
  ("gnosisSafe", [
    ("mastercopyOneOneOne", "0x34CfAC646f301356fAa8B21e94227e3583Fe3F5F"),
    ("gnosisSafeProxyFactory", "0x76E2cFc1F5Fa8F6a5b3fC4c8F4788F0116861F9B"),
    ("cpkFactory", "0x336c19296d3989e9e0c2561ef21c964068657c38"),
    ("multiSend", "0x29CAa04Fa05A046a05C85A50e8f2af8cf9A05BaC")]),
  ("kyber", [
    ("ETH", "0xeeeeeeeeeeeeeeeeeeeeeeeeeeeeeeeeeeeeeeee"),
    ("proxy", "0x0d5371e5EE23dec7DF251A8957279629aa79E9C5")]),
  ("maker", [
    ("medianizer2", "0x7e8f5b24d89F8F32786d564a5bA76Eb806a74872"),
    ("dsProxyFactory", "0x77f703D80716107b2855591cb81520353CCDfb67"),
    ("dsProxyRegistry", "0x4CeEb165578f17B15FDF055991b22e3D7d181a08")]),
  ("uniswap", [
    ("uniswapFactory", "0xf5D915570BC477f9B8D6C0E980aA81757A3AaC36"),
    ("daiExchange", "0x77dB9C915809e7BE439D2AB21032B1b8B58F6891")]),
  ("uniswapV2", [
    ("router2", "0x7a250d5630B4cF539739dF2C5dAcb4c659F2488D"),
    ("factory", "0x5C69bEe701ef814a2B6a3EDD4B1652CB9cc5aA6f")]),
  ("userProxy", userProxies)
]

end rinkeby

/-- Property access `obj[key]` on an object literal given as its list of
properties: the value of the property named `key`, if there is one. -/
def getProperty {α : Type} (obj : List (String × α)) (key : String) : Option α :=
  (obj.find? (fun p => p.1 == key)).map Prod.snd

/-- A hexadecimal digit, either case. -/
def isHexDigit (c : Char) : Bool :=
  ('0' ≤ c && c ≤ '9') || ('a' ≤ c && c ≤ 'f') || ('A' ≤ c && c ≤ 'F')

/-- A well-formed address literal: `0x` followed by exactly 40 hexadecimal
digits. -/
def isAddressLiteral (s : String) : Bool :=
  match s.toList with
  | '0' :: 'x' :: ds => ds.length == 40 && ds.all isHexDigit
  | _ => false

/-- The categories that `rinkeby.addressBook.js` takes from sibling modules
instead of defining inline (lines 7, 10 and 63). -/
def importedCategories : List String := ["EOA", "erc20", "userProxy"]

/-- The categories that `rinkeby.addressBook.js` spells out inline. -/
def inlineCategories : List String :=
  ["gelatoExecutor", "gelatoGasPriceOracle", "gelatoProvider", "gnosisProtocol",
   "gnosisSafe", "kyber", "maker", "uniswap", "uniswapV2"]

/-- Modelled from the spec: the `bre-config` task (the Config Resolver) is not
among the sources.  "Given a category and key, returns an address or list
entry; fails when the key is absent.  Pure lookup, no state."  Called with a
category only, as the default-payload task does, it yields the whole table of
that category. -/
def configResolver (book : List (String × AddressTable)) (addressbookcategory : String) :
    Except String AddressTable :=
  match getProperty book addressbookcategory with
  | some table => .ok table
  | none => .error addressbookcategory

/-- The contract names the two tasks refer to by literal: "GelatoCore"
(`task.multiProvide.js`, lines 45 and 69) and "ActionBzxPtokenMintWithToken"
(the default-payload task, line 11). -/
def referencedContracts : List String := ["GelatoCore", "ActionBzxPtokenMintWithToken"]

/-! ## Values exchanged with the external collaborators -/

/-- A parsed JSON value, as produced by the `types.json` argument type. -/
inductive Json where
  | null
  | bool (b : Bool)
  | num (n : Int)
  | str (s : String)
  | arr (items : List Json)
  | obj (props : List (String × Json))

/-- An error value: what is thrown, or what a promise rejects with. -/
structure JsError where
  message : String
  deriving DecidableEq

/-- An account returned by `ethers.getSigners()`. -/
structure Signer where
  address : String
  deriving DecidableEq

/-- A contract handle returned by the `instantiateContract` task. -/
structure Contract where
  address : String
  deriving DecidableEq

/-- A transaction response: the submitted transaction. -/
structure Tx where
  hash : String
  deriving DecidableEq

/-- A transaction receipt, as resolved by `tx.wait()`. -/
structure Receipt where
  blockHash : String
  deriving DecidableEq

/-- The constant `constants.AddressZero` of ethers. -/
def AddressZero : String := "0x0000000000000000000000000000000000000000"

/-! ## gc-multiprovide -/

/-- The named arguments as given on the command line: an optional parameter
may be absent, a flag is either set or not. -/
structure CliArgs where
  funds : Option String
  gelatoexecutor : Option String
  taskSpecs : Option Json
  modules : Option Json
  providerindex : Option Int
  gelatocoreaddress : Option String
  events : Bool
  log : Bool

/-- The `taskArgs` object the action receives. -/
structure TaskArgs where
  funds : String
  gelatoexecutor : String
  taskSpecs : Json
  modules : Json
  providerindex : Int
  gelatocoreaddress : Option String
  events : Bool
  log : Bool

/-- The defaults declared by the `addOptionalParam` calls of `gc-multiprovide`
(source lines 9 to 30): `funds` "0", `gelatoexecutor` the zero address,
`taskSpecs` and `modules` the empty array, `providerindex` 2;
`gelatocoreaddress` has no default. -/
def taskArgsOf (c : CliArgs) : TaskArgs where
  funds := c.funds.getD "0"
  gelatoexecutor := c.gelatoexecutor.getD AddressZero
  taskSpecs := c.taskSpecs.getD (Json.arr [])
  modules := c.modules.getD (Json.arr [])
  providerindex := c.providerindex.getD 2
  gelatocoreaddress := c.gelatocoreaddress
  events := c.events
  log := c.log

/-- What `gc-multiprovide` reaches outside itself: the buidler runtime
(`ethers.getSigners`, `run`), the ethers library (`utils.parseEther`), the
contract handle (`multiProvide`) and the transaction response (`wait`).  Each
answer is either a value or the error the call throws or rejects with. -/
structure World where
  getSigners : Except JsError (List Signer)
  instantiateContract :
    (contractname : String) → (contractaddress : Option String) → (signer : Signer) →
    (write : Bool) → Except JsError Contract
  parseEther : String → Except JsError Int
  multiProvide :
    Contract → (executor : String) → (taskSpecs : Json) → (modules : Json) → (value : Int) →
    Except JsError Tx
  wait : Tx → Except JsError Receipt
  getParsedLogsAllEvents :
    (contractname : String) → (contractaddress : String) → (blockhash : String) →
    (txhash : String) → (log : Bool) → Except JsError Unit

/-- The observable steps of a run of `gc-multiprovide`, in the order they
happen. -/
inductive Event where
  | getSigners
  | logTaskArgs (taskArgs : TaskArgs)
  | instantiateContract (contractname : String) (contractaddress : Option String)
      (signer : Signer) (write : Bool)
  | multiProvide (gelatoCore : Contract) (executor : String) (taskSpecs : Json)
      (modules : Json) (value : Int)
  | logTxHash (text : String)
  | wait (tx : Tx)
  | getParsedLogsAllEvents (contractname : String) (contractaddress : String)
      (blockhash : String) (txhash : String) (log : Bool)
  | consoleError (error : JsError)
  | exit (code : Nat)

/-- How the action ends: its promise resolves with a value, or the process is
terminated with an exit code. -/
inductive Outcome (α : Type) where
  | returned (value : α)
  | exited (code : Nat)

/-- Destructuring `{ [providerindex]: gelatoProvider } = signers`: the element
at that index, `undefined` (here `none`) when the array has no such index. -/
def signerAt (signers : List Signer) (providerindex : Int) : Option Signer :=
  if 0 ≤ providerindex then signers.get? providerindex.toNat else none

/-- The `try` block of the action (source lines 33 to 77): the events so far
and either the returned hash or the error that was thrown. -/
def multiProvideTry (w : World) (taskArgs : TaskArgs) : List Event × Except JsError String :=
  match w.getSigners with
  | .error e => ([Event.getSigners], .error e)
  | .ok signers =>
    match signerAt signers taskArgs.providerindex with
    | none => ([Event.getSigners], .error ⟨"\n gelatoProvider not instantiated \n"⟩)
    | some gelatoProvider =>
      let t1 : List Event :=
        [Event.getSigners] ++ (if taskArgs.log then [Event.logTaskArgs taskArgs] else [])
          ++ [Event.instantiateContract "GelatoCore" taskArgs.gelatocoreaddress gelatoProvider true]
      match w.instantiateContract "GelatoCore" taskArgs.gelatocoreaddress gelatoProvider true with
      | .error e => (t1, .error e)
      | .ok gelatoCore =>
        match w.parseEther taskArgs.funds with
        | .error e => (t1, .error e)
        | .ok value =>
          let t2 : List Event :=
            t1 ++ [Event.multiProvide gelatoCore taskArgs.gelatoexecutor taskArgs.taskSpecs
              taskArgs.modules value]
          match w.multiProvide gelatoCore taskArgs.gelatoexecutor taskArgs.taskSpecs
              taskArgs.modules value with
          | .error e => (t2, .error e)
          | .ok tx =>
            let t3 : List Event :=
              t2 ++ (if taskArgs.log then [Event.logTxHash ("\n\ntxHash multiProvide: " ++ tx.hash)]
                else []) ++ [Event.wait tx]
            match w.wait tx with
            | .error e => (t3, .error e)
            | .ok receipt =>
              if taskArgs.events then
                let t4 : List Event :=
                  t3 ++ [Event.getParsedLogsAllEvents "GelatoCore" gelatoCore.address
                    receipt.blockHash tx.hash true]
                match w.getParsedLogsAllEvents "GelatoCore" gelatoCore.address
                    receipt.blockHash tx.hash true with
                | .error e => (t4, .error e)
                | .ok _ => (t4, .ok tx.hash)
              else (t3, .ok tx.hash)

/-- The action of `gc-multiprovide` (source lines 31 to 82): the `try` block,
and the `catch` clause that prints the error and calls `process.exit(1)`. -/
def gcMultiprovide (w : World) (taskArgs : TaskArgs) : List Event × Outcome String :=
  match multiProvideTry w taskArgs with
  | (t, .ok hash) => (t, Outcome.returned hash)
  | (t, .error e) => (t ++ [Event.consoleError e, Event.exit 1], Outcome.exited 1)

/-! ## The default payload of ActionBzxPtokenMintWithToken -/

/-- A JavaScript value placed in the `inputs` array. -/
inductive JsValue where
  | undefined
  | string (s : String)
  | bigNumber (n : Int)
  deriving DecidableEq

/-- The value of a destructured property: `undefined` when the object has no
such property. -/
def JsValue.ofProperty (table : AddressTable) (key : String) : JsValue :=
  match getProperty table key with
  | some address => JsValue.string address
  | none => JsValue.undefined

/-- The parameters of `action` as the task documents them (source line 29):
`action(_user, _userProxy, _depositTokenAddress, _depositAmount,
_pTokenAddress, _minConversionRate)`. -/
def actionParams : List String :=
  ["_user", "_userProxy", "_depositTokenAddress", "_depositAmount", "_pTokenAddress",
   "_minConversionRate"]

/-- The array literal `inputs` (source lines 30 to 36). -/
def inputs (user userProxy depositTokenAddress depositTokenAddressAmt pTokenAddress : JsValue) :
    List JsValue :=
  [user, userProxy, depositTokenAddress, depositTokenAddressAmt, pTokenAddress]

/-- What the default-payload task reaches outside itself: the `bre-config`
and `abi-encode-withselector` tasks and `utils.parseUnits` of ethers. -/
structure PayloadWorld where
  breConfig : (addressbookcategory : String) → Except JsError AddressTable
  parseUnits : String → Nat → Except JsError Int
  abiEncodeWithSelector :
    (contractname : String) → (functionname : String) → (inputs : List JsValue) →
    (log : Bool) → Except JsError String

/-- The observable steps of a run of the default-payload task. -/
inductive PayloadEvent where
  | breConfig (addressbookcategory : String)
  | abiEncodeWithSelector (contractname : String) (functionname : String)
      (inputs : List JsValue) (log : Bool)
  | consoleError (error : JsError)
  | exit (code : Nat)

/-- The `try` block of the default-payload action (source lines 11 to 44). -/
def defaultPayloadTry (w : PayloadWorld) (log : Bool) :
    List PayloadEvent × Except JsError String :=
  let contractname := "ActionBzxPtokenMintWithToken"
  let functionname := "action"
  match w.breConfig "EOA" with
  | .error e => ([PayloadEvent.breConfig "EOA"], .error e)
  | .ok eoas =>
    let user := JsValue.ofProperty eoas "luis"
    match w.breConfig "userProxy" with
    | .error e => ([PayloadEvent.breConfig "EOA", PayloadEvent.breConfig "userProxy"], .error e)
    | .ok userProxies =>
      let userProxy := JsValue.ofProperty userProxies "luis"
      let t3 : List PayloadEvent :=
        [PayloadEvent.breConfig "EOA", PayloadEvent.breConfig "userProxy",
         PayloadEvent.breConfig "erc20"]
      match w.breConfig "erc20" with
      | .error e => (t3, .error e)
      | .ok erc20s =>
        let depositTokenAddress := JsValue.ofProperty erc20s "DAI"
        let pTokenAddress := JsValue.ofProperty erc20s "dLETH2x"
        match w.parseUnits "10" 18 with
        | .error e => (t3, .error e)
        | .ok depositTokenAddressAmt =>
          let args := inputs user userProxy depositTokenAddress
            (JsValue.bigNumber depositTokenAddressAmt) pTokenAddress
          let t4 := t3 ++ [PayloadEvent.abiEncodeWithSelector contractname functionname args log]
          match w.abiEncodeWithSelector contractname functionname args log with
          | .error e => (t4, .error e)
          | .ok payloadWithSelector => (t4, .ok payloadWithSelector)

/-- The action of `gc-mint:defaultpayload:ActionBzxPtokenMintWithToken`
(source lines 9 to 49): the `try` block, and the `catch` clause that prints
the error and calls `process.exit(1)`. -/
def defaultPayload (w : PayloadWorld) (log : Bool) : List PayloadEvent × Outcome String :=
  match defaultPayloadTry w log with
  | (t, .ok payloadWithSelector) => (t, Outcome.returned payloadWithSelector)
  | (t, .error e) =>
    (t ++ [PayloadEvent.consoleError e, PayloadEvent.exit 1], Outcome.exited 1)

/-! ## The unit conversion of the ethers library

`utils.parseEther` belongs to the ethers package, which the tasks import and
which is not among the sources.  The tasks take it as one of their external
collaborators; the definitions below describe the library function itself. -/

namespace ethers

/-- The character class `[0-9]`. -/
def isDigit (c : Char) : Bool := '0' ≤ c && c ≤ '9'

/-- The natural number written by a string of decimal digits (0 for the empty
string). -/
def digitsToNat (ds : List Char) : Nat :=
  ds.foldl (fun n c => 10 * n + (c.toNat - '0'.toNat)) 0

/-- The test `value.match(/^-?[0-9.,]+$/)`. -/
def matchesDecimal (value : List Char) : Bool :=
  let body := match value with
    | '-' :: rest => rest
    | _ => value
  !body.isEmpty && body.all (fun c => isDigit c || c == '.' || c == ',')

/-- The array `value.split(".")`. -/
def splitOnDot : List Char → List (List Char)
  | [] => [[]]
  | c :: cs =>
    if c = '.' then [] :: splitOnDot cs
    else match splitOnDot cs with
      | [] => [[c]]
      | piece :: pieces => (c :: piece) :: pieces

/-- The library's `bigNumberify` on a string that is not hexadecimal: accepted when it
matches `/^-?[0-9]*$/`. -/
def bigNumberify (value : List Char) : Except JsError Int :=
  match value with
  | '-' :: rest =>
    if rest.all isDigit then .ok (-(digitsToNat rest : Int)) else .error ⟨"invalid BigNumber string value"⟩
  | _ =>
    if value.all isDigit then .ok (digitsToNat value : Int) else .error ⟨"invalid BigNumber string value"⟩

/-- Modelled from the spec: `utils.parseUnits` belongs to the ethers library,
which is missing from the sources and which the spec leaves to "the underlying
chain client library".  The definition follows that library's algorithm on the
characters of `value`: test the text against `/^-?[0-9.,]+$/`, strip the sign,
split at the point, replace an empty part by "0", reject more than `decimals`
digits after the point, pad them with zeros to `decimals` places, and add the
whole part times `10^decimals`. -/
def parseUnitsChars (value : List Char) (decimals : Nat) : Except JsError Int :=
  if !matchesDecimal value then .error ⟨"invalid decimal value"⟩
  else if decimals = 0 then bigNumberify value
  else
    let negative := value.take 1 == ['-']
    let value := if negative then value.drop 1 else value
    if value = ['.'] then .error ⟨"missing value"⟩
    else
      let comps := splitOnDot value
      if comps.length > 2 then .error ⟨"too many decimal points"⟩
      else
        let whole := comps.getD 0 []
        let fraction := comps.getD 1 []
        let whole := if whole.isEmpty then ['0'] else whole
        let fraction := if fraction.isEmpty then ['0'] else fraction
        if fraction.length > decimals then .error ⟨"underflow occurred"⟩
        else
          let fraction := fraction ++ List.replicate (decimals - fraction.length) '0'
          match bigNumberify whole, bigNumberify fraction with
          | .ok wholeValue, .ok fractionValue =>
            let wei := wholeValue * (10 : Int) ^ decimals + fractionValue
            .ok (if negative then wei * (-1) else wei)
          | .error e, _ => .error e
          | _, .error e => .error e

/-- Modelled from the spec: the library function
`utils.parseUnits(value, decimals)` of ethers, missing from the sources. -/
def parseUnits (value : String) (decimals : Nat) : Except JsError Int :=
  parseUnitsChars value.toList decimals

/-- Modelled from the spec: the library function `utils.parseEther(ether)`
of ethers, missing from the sources; it is `parseUnits(ether, 18)`. -/
def parseEther (ether : String) : Except JsError Int :=
  parseUnits ether 18

end ethers

/-! ## Decimal numerals -/

/-- The text of a decimal numeral: an optional minus sign, the digits of the
whole part and, when there is a decimal point, the digits after it. -/
def decimalString (negative : Bool) (whole : List Char) (fraction : Option (List Char)) :
    String :=
  String.mk ((if negative then ['-'] else []) ++ whole ++
    (match fraction with
      | none => []
      | some f => '.' :: f))

/-- The ten decimal digits. -/
def decimalDigits : List Char := ['0', '1', '2', '3', '4', '5', '6', '7', '8', '9']

/-- The number a decimal digit stands for. -/
def digitOf : Char → Nat
  | '1' => 1
  | '2' => 2
  | '3' => 3
  | '4' => 4
  | '5' => 5
  | '6' => 6
  | '7' => 7
  | '8' => 8
  | '9' => 9
  | _ => 0

/-- The number written by the digits before the point: each digit counts its
power of ten, units last. -/
def wholePartValue : List Char → ℚ
  | [] => 0
  | c :: cs => (digitOf c : ℚ) * 10 ^ cs.length + wholePartValue cs

/-- The number written by the digits after the point: tenths first, then
hundredths, and so on. -/
def fractionPartValue : List Char → ℚ
  | [] => 0
  | c :: cs => ((digitOf c : ℚ) + fractionPartValue cs) / 10

/-- The rational number a decimal numeral denotes. -/
def decimalValue (negative : Bool) (whole : List Char) (fraction : Option (List Char)) : ℚ :=
  (if negative then -1 else 1) *
    (wholePartValue whole + fractionPartValue (fraction.getD []))

/-- A decimal numeral with at most 18 digits after the point: both parts are
strings of decimal digits and at least one digit is written. -/
def IsDecimal18 (whole : List Char) (fraction : Option (List Char)) : Prop :=
  (∀ c ∈ whole, c ∈ decimalDigits) ∧ (∀ c ∈ fraction.getD [], c ∈ decimalDigits) ∧
    (fraction.getD []).length ≤ 18 ∧ (whole ≠ [] ∨ fraction.getD [] ≠ [])

/-! ## Reading a trace -/

/-- The `value` overrides of the `multiProvide` calls made in a run. -/
def valuesSent : List Event → List Int
  | [] => []
  | Event.multiProvide _ _ _ _ value :: rest => value :: valuesSent rest
  | _ :: rest => valuesSent rest

/-- The argument triples of the `multiProvide` calls made in a run. -/
def multiProvideCalls : List Event → List (String × Json × Json)
  | [] => []
  | Event.multiProvide _ executor taskSpecs modules _ :: rest =>
    (executor, taskSpecs, modules) :: multiProvideCalls rest
  | _ :: rest => multiProvideCalls rest

/-- The signers handed to `instantiateContract` in a run. -/
def instantiationSigners : List Event → List Signer
  | [] => []
  | Event.instantiateContract _ _ signer _ :: rest => signer :: instantiationSigners rest
  | _ :: rest => instantiationSigners rest

/-- The arguments of the `event-getparsedlogsallevents` runs of a trace. -/
def logFetches : List Event → List (String × String × String × String × Bool)
  | [] => []
  | Event.getParsedLogsAllEvents contractname contractaddress blockhash txhash log :: rest =>
    (contractname, contractaddress, blockhash, txhash, log) :: logFetches rest
  | _ :: rest => logFetches rest

/-- The contract names handed to other tasks in a run of `gc-multiprovide`. -/
def contractNames : List Event → List String
  | [] => []
  | Event.instantiateContract contractname _ _ _ :: rest => contractname :: contractNames rest
  | Event.getParsedLogsAllEvents contractname _ _ _ _ :: rest =>
    contractname :: contractNames rest
  | _ :: rest => contractNames rest

/-- The contract names handed to other tasks in a run of the default-payload
task. -/
def payloadContractNames : List PayloadEvent → List String
  | [] => []
  | PayloadEvent.abiEncodeWithSelector contractname _ _ _ :: rest =>
    contractname :: payloadContractNames rest
  | _ :: rest => payloadContractNames rest

/-- The events up to and including the `instantiateContract` run. -/
def traceToInstantiate (a : TaskArgs) (gelatoProvider : Signer) : List Event :=
  [Event.getSigners] ++ (if a.log then [Event.logTaskArgs a] else [])
    ++ [Event.instantiateContract "GelatoCore" a.gelatocoreaddress gelatoProvider true]

/-- The events up to and including the `multiProvide` call. -/
def traceToSubmit (a : TaskArgs) (gelatoProvider : Signer) (gelatoCore : Contract)
    (value : Int) : List Event :=
  traceToInstantiate a gelatoProvider ++
    [Event.multiProvide gelatoCore a.gelatoexecutor a.taskSpecs a.modules value]

/-- The events up to and including `tx.wait()`. -/
def traceToWait (a : TaskArgs) (gelatoProvider : Signer) (gelatoCore : Contract)
    (value : Int) (tx : Tx) : List Event :=
  traceToSubmit a gelatoProvider gelatoCore value ++
    (if a.log then [Event.logTxHash ("\n\ntxHash multiProvide: " ++ tx.hash)] else [])
    ++ [Event.wait tx]

/-! ## Which steps of a run succeed -/

/-- The signer list is obtained and has an element at `providerindex`. -/
def ProviderFound (w : World) (a : TaskArgs) (gelatoProvider : Signer) : Prop :=
  ∃ signers, w.getSigners = .ok signers ∧
    signerAt signers a.providerindex = some gelatoProvider

/-- The steps up to and including `instantiateContract` succeed. -/
def Instantiated (w : World) (a : TaskArgs) (gelatoCore : Contract) : Prop :=
  ∃ gelatoProvider, ProviderFound w a gelatoProvider ∧
    w.instantiateContract "GelatoCore" a.gelatocoreaddress gelatoProvider true = .ok gelatoCore

/-- The steps up to and including the `multiProvide` call succeed. -/
def Submitted (w : World) (a : TaskArgs) (gelatoCore : Contract) (value : Int) (tx : Tx) :
    Prop :=
  Instantiated w a gelatoCore ∧ w.parseEther a.funds = .ok value ∧
    w.multiProvide gelatoCore a.gelatoexecutor a.taskSpecs a.modules value = .ok tx

/-- The steps up to and including `tx.wait()` succeed. -/
def ReceiptAwaited (w : World) (a : TaskArgs) (gelatoCore : Contract) (value : Int) (tx : Tx)
    (receipt : Receipt) : Prop :=
  Submitted w a gelatoCore value tx ∧ w.wait tx = .ok receipt

/-- Every step of a run of `gc-multiprovide` succeeds. -/
def AllStepsSucceed (w : World) (a : TaskArgs) (gelatoCore : Contract) (value : Int) (tx : Tx)
    (receipt : Receipt) : Prop :=
  ReceiptAwaited w a gelatoCore value tx receipt ∧
    (a.events = true →
      w.getParsedLogsAllEvents "GelatoCore" gelatoCore.address receipt.blockHash tx.hash true
        = .ok ())

/-- Some step of a run of `gc-multiprovide` fails with the given error, the
steps before it having succeeded. -/
inductive StepFails (w : World) (a : TaskArgs) : JsError → Prop
  | getSigners {e : JsError} : w.getSigners = .error e → StepFails w a e
  | noSigner {signers : List Signer} :
      w.getSigners = .ok signers → signerAt signers a.providerindex = none →
      StepFails w a ⟨"\n gelatoProvider not instantiated \n"⟩
  | instantiateContract {gelatoProvider : Signer} {e : JsError} :
      ProviderFound w a gelatoProvider →
      w.instantiateContract "GelatoCore" a.gelatocoreaddress gelatoProvider true = .error e →
      StepFails w a e
  | parseEther {gelatoCore : Contract} {e : JsError} :
      Instantiated w a gelatoCore → w.parseEther a.funds = .error e → StepFails w a e
  | multiProvide {gelatoCore : Contract} {value : Int} {e : JsError} :
      Instantiated w a gelatoCore → w.parseEther a.funds = .ok value →
      w.multiProvide gelatoCore a.gelatoexecutor a.taskSpecs a.modules value = .error e →
      StepFails w a e
  | wait {gelatoCore : Contract} {value : Int} {tx : Tx} {e : JsError} :
      Submitted w a gelatoCore value tx → w.wait tx = .error e → StepFails w a e
  | getParsedLogsAllEvents {gelatoCore : Contract} {value : Int} {tx : Tx} {receipt : Receipt}
      {e : JsError} :
      ReceiptAwaited w a gelatoCore value tx receipt → a.events = true →
      w.getParsedLogsAllEvents "GelatoCore" gelatoCore.address receipt.blockHash tx.hash true
        = .error e →
      StepFails w a e

/-- Some step of a run of the default-payload task fails with the given
error, the steps before it having succeeded. -/
inductive PayloadStepFails (w : PayloadWorld) (log : Bool) : JsError → Prop
  | eoa {e : JsError} : w.breConfig "EOA" = .error e → PayloadStepFails w log e
  | userProxy {eoas : AddressTable} {e : JsError} :
      w.breConfig "EOA" = .ok eoas → w.breConfig "userProxy" = .error e →
      PayloadStepFails w log e
  | erc20 {eoas userProxies : AddressTable} {e : JsError} :
      w.breConfig "EOA" = .ok eoas → w.breConfig "userProxy" = .ok userProxies →
      w.breConfig "erc20" = .error e → PayloadStepFails w log e
  | parseUnits {eoas userProxies erc20s : AddressTable} {e : JsError} :
      w.breConfig "EOA" = .ok eoas → w.breConfig "userProxy" = .ok userProxies →
      w.breConfig "erc20" = .ok erc20s → w.parseUnits "10" 18 = .error e →
      PayloadStepFails w log e
  | abiEncodeWithSelector {eoas userProxies erc20s : AddressTable} {amount : Int}
      {e : JsError} :
      w.breConfig "EOA" = .ok eoas → w.breConfig "userProxy" = .ok userProxies →
      w.breConfig "erc20" = .ok erc20s → w.parseUnits "10" 18 = .ok amount →
      w.abiEncodeWithSelector "ActionBzxPtokenMintWithToken" "action"
        (inputs (JsValue.ofProperty eoas "luis") (JsValue.ofProperty userProxies "luis")
          (JsValue.ofProperty erc20s "DAI") (JsValue.bigNumber amount)
          (JsValue.ofProperty erc20s "dLETH2x")) log = .error e →
      PayloadStepFails w log e

/-! ## Sample collaborators -/

/-- A world in which every collaborator answers: the given signer list, a
contract at the requested address (or at a fixed one), the unit conversion of
ethers, one fixed transaction and one fixed receipt. -/
def sampleWorld (signers : List Signer) : World where
  getSigners := .ok signers
  instantiateContract := fun _ contractaddress _ _ => .ok ⟨contractaddress.getD "0xC0"⟩
  parseEther := ethers.parseEther
  multiProvide := fun _ _ _ _ _ => .ok ⟨"0xAA"⟩
  wait := fun _ => .ok ⟨"0xBB"⟩
  getParsedLogsAllEvents := fun _ _ _ _ _ => .ok ()

/-- Three accounts. -/
def sampleSigners : List Signer := [⟨"0x01"⟩, ⟨"0x02"⟩, ⟨"0x03"⟩]

/-- A command line that supplies no optional parameter. -/
def sampleCli (events : Bool) (funds : Option String) : CliArgs where
  funds := funds
  gelatoexecutor := none
  taskSpecs := none
  modules := none
  providerindex := none
  gelatocoreaddress := none
  events := events
  log := false

/-- A world for the default-payload task in which `bre-config` resolves
categories against the given address book and the encoding step rejects. -/
def samplePayloadWorld (book : List (String × AddressTable)) : PayloadWorld where
  breConfig := fun addressbookcategory =>
    match configResolver book addressbookcategory with
    | .ok table => .ok table
    | .error category => .error ⟨category⟩
  parseUnits := ethers.parseUnits
  abiEncodeWithSelector := fun _ _ _ _ => .error ⟨"types/values length mismatch"⟩

end Gelato

/-! ## Configuration tables -/

namespace Gelato

/-- C1: in the kovan contract list and in the rinkeby contract list, the names
at any two distinct positions of the same list differ. -/
theorem contracts_names_distinct :
    (∀ i j : Fin kovan.contracts.length, i ≠ j →
      kovan.contracts.get i ≠ kovan.contracts.get j) ∧
    (∀ i j : Fin rinkeby.contracts.length, i ≠ j →
      rinkeby.contracts.get i ≠ rinkeby.contracts.get j) := by
  have hk : kovan.contracts.Nodup := by decide
  have hr : rinkeby.contracts.Nodup := by decide
  exact ⟨fun i j hij h => hij (hk.get_inj_iff.mp h), fun i j hij h => hij (hr.get_inj_iff.mp h)⟩

/-- Positions 9 and 20 of the kovan list ("ScriptEnterPortfolioRebalancing"
and "ScriptEnterPortfolioRebalancingKovan") and positions 15 and 16 of the
rinkeby list hold different names. -/
theorem contracts_names_distinct_witness :
    kovan.contracts.get ⟨9, by decide⟩ ≠ kovan.contracts.get ⟨20, by decide⟩ ∧
    rinkeby.contracts.get ⟨15, by decide⟩ ≠ rinkeby.contracts.get ⟨16, by decide⟩ :=
  ⟨contracts_names_distinct.1 ⟨9, by decide⟩ ⟨20, by decide⟩ (by decide),
   contracts_names_distinct.2 ⟨15, by decide⟩ ⟨16, by decide⟩ (by decide)⟩

/-- C3: "EOA", "userProxy" and "erc20" are keys of the rinkeby address book,
and the category lookup succeeds on each and returns the table stored under
it: `eoas`, `userProxies` and `erc20s` respectively. -/
theorem category_lookups_succeed (eoas erc20s userProxies : AddressTable) :
    ("EOA" ∈ (rinkeby.addressBook eoas erc20s userProxies).map Prod.fst ∧
      "userProxy" ∈ (rinkeby.addressBook eoas erc20s userProxies).map Prod.fst ∧
      "erc20" ∈ (rinkeby.addressBook eoas erc20s userProxies).map Prod.fst) ∧
    configResolver (rinkeby.addressBook eoas erc20s userProxies) "EOA" = .ok eoas ∧
    configResolver (rinkeby.addressBook eoas erc20s userProxies) "userProxy" = .ok userProxies ∧
    configResolver (rinkeby.addressBook eoas erc20s userProxies) "erc20" = .ok erc20s := by
  refine ⟨⟨?_, ?_, ?_⟩, ?_, ?_, ?_⟩
  · simp [rinkeby.addressBook]
  · simp [rinkeby.addressBook]
  · simp [rinkeby.addressBook]
  · rfl
  · rfl
  · rfl

/-- C10: every category of the rinkeby address book other than the three
imported ones is one of the nine inline categories, each of the nine is
present, each of its addresses is `0x` followed by exactly 40 hexadecimal
digits, and its symbolic names are pairwise distinct. -/
theorem inline_entries_well_formed (eoas erc20s userProxies : AddressTable) :
    (∀ category ∈ inlineCategories,
      category ∈ (rinkeby.addressBook eoas erc20s userProxies).map Prod.fst) ∧
    (∀ entry ∈ rinkeby.addressBook eoas erc20s userProxies, entry.1 ∉ importedCategories →
      entry.1 ∈ inlineCategories ∧ (entry.2.map Prod.fst).Nodup ∧
        ∀ named ∈ entry.2, isAddressLiteral named.2 = true) := by
  constructor
  · intro category h
    simp only [inlineCategories, List.mem_cons, List.mem_singleton, List.not_mem_nil,
      or_false] at h
    rcases h with h | h | h | h | h | h | h | h | h <;> subst h <;> simp [rinkeby.addressBook]
  · intro entry h
    simp only [rinkeby.addressBook, List.mem_cons, List.mem_singleton, List.not_mem_nil,
      or_false] at h
    rcases h with h | h | h | h | h | h | h | h | h | h | h | h <;> subst h
    case inl => exact fun hn => absurd (show "EOA" ∈ importedCategories by decide) hn
    case inr.inl => exact fun hn => absurd (show "erc20" ∈ importedCategories by decide) hn
    case inr.inr.inr.inr.inr.inr.inr.inr.inr.inr.inr =>
      exact fun hn => absurd (show "userProxy" ∈ importedCategories by decide) hn
    all_goals decide

/-- The `gnosisSafe` category: four distinct names, four well-formed
addresses. -/
theorem inline_entries_well_formed_witness :
    "gnosisSafe" ∈ inlineCategories ∧
    (["mastercopyOneOneOne", "gnosisSafeProxyFactory", "cpkFactory", "multiSend"] :
      List String).Nodup ∧
    isAddressLiteral "0x336c19296d3989e9e0c2561ef21c964068657c38" = true :=
  have h := (inline_entries_well_formed [] [] []).2
    ("gnosisSafe", [
      ("mastercopyOneOneOne", "0x34CfAC646f301356fAa8B21e94227e3583Fe3F5F"),
      ("gnosisSafeProxyFactory", "0x76E2cFc1F5Fa8F6a5b3fC4c8F4788F0116861F9B"),
      ("cpkFactory", "0x336c19296d3989e9e0c2561ef21c964068657c38"),
      ("multiSend", "0x29CAa04Fa05A046a05C85A50e8f2af8cf9A05BaC")])
    (by simp [rinkeby.addressBook]) (by decide)
  ⟨h.1, h.2.1, h.2.2 ("cpkFactory", "0x336c19296d3989e9e0c2561ef21c964068657c38") (by simp)⟩

/-- C6: the `inputs` array of the default-payload task has five entries
whatever the looked-up values are, while the documented signature of `action`
has six parameters; the five entries stand at the positions of the first five
parameters and nothing is passed for `_minConversionRate`. -/
theorem inputs_shorter_than_signature
    (user userProxy depositTokenAddress depositTokenAddressAmt pTokenAddress : JsValue) :
    (inputs user userProxy depositTokenAddress depositTokenAddressAmt pTokenAddress).length = 5 ∧
    actionParams.length = 6 ∧
    (inputs user userProxy depositTokenAddress depositTokenAddressAmt pTokenAddress).length
      ≠ actionParams.length ∧
    actionParams.get? 5 = some "_minConversionRate" ∧
    (inputs user userProxy depositTokenAddress depositTokenAddressAmt pTokenAddress).get? 5
      = none := by
  refine ⟨rfl, rfl, by simp [inputs, actionParams], rfl, rfl⟩

/-! ## Runs of gc-multiprovide, step by step -/

theorem multiProvideTry_getSigners_error {w : World} {a : TaskArgs} {e : JsError}
    (h : w.getSigners = .error e) :
    multiProvideTry w a = ([Event.getSigners], .error e) := by
  simp [multiProvideTry, h]

theorem multiProvideTry_noSigner {w : World} {a : TaskArgs} {signers : List Signer}
    (h : w.getSigners = .ok signers) (hp : signerAt signers a.providerindex = none) :
    multiProvideTry w a =
      ([Event.getSigners], .error ⟨"\n gelatoProvider not instantiated \n"⟩) := by
  simp [multiProvideTry, h, hp]

theorem multiProvideTry_instantiate_error {w : World} {a : TaskArgs} {p : Signer}
    {e : JsError} (hp : ProviderFound w a p)
    (hi : w.instantiateContract "GelatoCore" a.gelatocoreaddress p true = .error e) :
    multiProvideTry w a = (traceToInstantiate a p, .error e) := by
  obtain ⟨signers, h, hs⟩ := hp
  simp [multiProvideTry, traceToInstantiate, h, hs, hi]

theorem multiProvideTry_parse_error {w : World} {a : TaskArgs} {p : Signer} {g : Contract}
    {e : JsError} (hp : ProviderFound w a p)
    (hi : w.instantiateContract "GelatoCore" a.gelatocoreaddress p true = .ok g)
    (hv : w.parseEther a.funds = .error e) :
    multiProvideTry w a = (traceToInstantiate a p, .error e) := by
  obtain ⟨signers, h, hs⟩ := hp
  simp [multiProvideTry, traceToInstantiate, h, hs, hi, hv]

theorem multiProvideTry_submit_error {w : World} {a : TaskArgs} {p : Signer} {g : Contract}
    {v : Int} {e : JsError} (hp : ProviderFound w a p)
    (hi : w.instantiateContract "GelatoCore" a.gelatocoreaddress p true = .ok g)
    (hv : w.parseEther a.funds = .ok v)
    (hm : w.multiProvide g a.gelatoexecutor a.taskSpecs a.modules v = .error e) :
    multiProvideTry w a = (traceToSubmit a p g v, .error e) := by
  obtain ⟨signers, h, hs⟩ := hp
  simp [multiProvideTry, traceToSubmit, traceToInstantiate, h, hs, hi, hv, hm]

theorem multiProvideTry_wait_error {w : World} {a : TaskArgs} {p : Signer} {g : Contract}
    {v : Int} {tx : Tx} {e : JsError} (hp : ProviderFound w a p)
    (hi : w.instantiateContract "GelatoCore" a.gelatocoreaddress p true = .ok g)
    (hv : w.parseEther a.funds = .ok v)
    (hm : w.multiProvide g a.gelatoexecutor a.taskSpecs a.modules v = .ok tx)
    (hw : w.wait tx = .error e) :
    multiProvideTry w a = (traceToWait a p g v tx, .error e) := by
  obtain ⟨signers, h, hs⟩ := hp
  simp [multiProvideTry, traceToWait, traceToSubmit, traceToInstantiate, h, hs, hi, hv, hm, hw]

theorem multiProvideTry_no_events {w : World} {a : TaskArgs} {p : Signer} {g : Contract}
    {v : Int} {tx : Tx} {r : Receipt} (hp : ProviderFound w a p)
    (hi : w.instantiateContract "GelatoCore" a.gelatocoreaddress p true = .ok g)
    (hv : w.parseEther a.funds = .ok v)
    (hm : w.multiProvide g a.gelatoexecutor a.taskSpecs a.modules v = .ok tx)
    (hw : w.wait tx = .ok r) (he : a.events = false) :
    multiProvideTry w a = (traceToWait a p g v tx, .ok tx.hash) := by
  obtain ⟨signers, h, hs⟩ := hp
  simp [multiProvideTry, traceToWait, traceToSubmit, traceToInstantiate, h, hs, hi, hv, hm, hw,
    he]

theorem multiProvideTry_events {w : World} {a : TaskArgs} {p : Signer} {g : Contract}
    {v : Int} {tx : Tx} {r : Receipt} (hp : ProviderFound w a p)
    (hi : w.instantiateContract "GelatoCore" a.gelatocoreaddress p true = .ok g)
    (hv : w.parseEther a.funds = .ok v)
    (hm : w.multiProvide g a.gelatoexecutor a.taskSpecs a.modules v = .ok tx)
    (hw : w.wait tx = .ok r) (he : a.events = true) :
    multiProvideTry w a =
      (traceToWait a p g v tx ++
        [Event.getParsedLogsAllEvents "GelatoCore" g.address r.blockHash tx.hash true],
       match w.getParsedLogsAllEvents "GelatoCore" g.address r.blockHash tx.hash true with
       | .error e => .error e
       | .ok _ => .ok tx.hash) := by
  obtain ⟨signers, h, hs⟩ := hp
  simp only [multiProvideTry, traceToWait, traceToSubmit, traceToInstantiate, h, hs, hi, hv, hm,
    hw, he]
  cases w.getParsedLogsAllEvents "GelatoCore" g.address r.blockHash tx.hash true <;> simp

/-! ### Reading the traces of the stages -/

theorem logFetches_traceToWait (a : TaskArgs) (p : Signer) (g : Contract) (v : Int) (tx : Tx) :
    logFetches (traceToWait a p g v tx) = [] := by
  cases hl : a.log <;> simp [traceToWait, traceToSubmit, traceToInstantiate, hl, logFetches]

theorem valuesSent_traceToWait (a : TaskArgs) (p : Signer) (g : Contract) (v : Int) (tx : Tx) :
    valuesSent (traceToWait a p g v tx) = [v] := by
  cases hl : a.log <;>
    simp [traceToWait, traceToSubmit, traceToInstantiate, hl, valuesSent]

/-! ### Every run is one of eight -/

/-- The shapes a run of `gc-multiprovide` can take once the provider account
is found. -/
theorem gcMultiprovide_of_provider {w : World} {a : TaskArgs} {p : Signer}
    (hp : ProviderFound w a p) :
    (∃ e, w.instantiateContract "GelatoCore" a.gelatocoreaddress p true = .error e ∧
      gcMultiprovide w a =
        (traceToInstantiate a p ++ [Event.consoleError e, Event.exit 1], Outcome.exited 1)) ∨
    (∃ g e, Instantiated w a g ∧ w.parseEther a.funds = .error e ∧
      gcMultiprovide w a =
        (traceToInstantiate a p ++ [Event.consoleError e, Event.exit 1], Outcome.exited 1)) ∨
    (∃ g v e, Instantiated w a g ∧ w.parseEther a.funds = .ok v ∧
      w.multiProvide g a.gelatoexecutor a.taskSpecs a.modules v = .error e ∧
      gcMultiprovide w a =
        (traceToSubmit a p g v ++ [Event.consoleError e, Event.exit 1], Outcome.exited 1)) ∨
    (∃ g v tx e, Submitted w a g v tx ∧ w.wait tx = .error e ∧
      gcMultiprovide w a =
        (traceToWait a p g v tx ++ [Event.consoleError e, Event.exit 1], Outcome.exited 1)) ∨
    (∃ g v tx r, ReceiptAwaited w a g v tx r ∧ a.events = false ∧
      gcMultiprovide w a = (traceToWait a p g v tx, Outcome.returned tx.hash)) ∨
    (∃ g v tx r, ReceiptAwaited w a g v tx r ∧ a.events = true ∧
      w.getParsedLogsAllEvents "GelatoCore" g.address r.blockHash tx.hash true = .ok () ∧
      gcMultiprovide w a =
        (traceToWait a p g v tx ++
          [Event.getParsedLogsAllEvents "GelatoCore" g.address r.blockHash tx.hash true],
         Outcome.returned tx.hash)) ∨
    (∃ g v tx r e, ReceiptAwaited w a g v tx r ∧ a.events = true ∧
      w.getParsedLogsAllEvents "GelatoCore" g.address r.blockHash tx.hash true = .error e ∧
      gcMultiprovide w a =
        (traceToWait a p g v tx ++
          [Event.getParsedLogsAllEvents "GelatoCore" g.address r.blockHash tx.hash true] ++
          [Event.consoleError e, Event.exit 1],
         Outcome.exited 1)) := by
  cases hi : w.instantiateContract "GelatoCore" a.gelatocoreaddress p true with
  | error e =>
    exact Or.inl ⟨e, rfl, by simp [gcMultiprovide, multiProvideTry_instantiate_error hp hi]⟩
  | ok g =>
    have hI : Instantiated w a g := ⟨p, hp, hi⟩
    cases hv : w.parseEther a.funds with
    | error e =>
      exact Or.inr (Or.inl ⟨g, e, hI, rfl,
        by simp [gcMultiprovide, multiProvideTry_parse_error hp hi hv]⟩)
    | ok v =>
      cases hm : w.multiProvide g a.gelatoexecutor a.taskSpecs a.modules v with
      | error e =>
        exact Or.inr (Or.inr (Or.inl ⟨g, v, e, hI, rfl, hm,
          by simp [gcMultiprovide, multiProvideTry_submit_error hp hi hv hm]⟩))
      | ok tx =>
        have hS : Submitted w a g v tx := ⟨hI, hv, hm⟩
        cases hw : w.wait tx with
        | error e =>
          exact Or.inr (Or.inr (Or.inr (Or.inl ⟨g, v, tx, e, hS, hw,
            by simp [gcMultiprovide, multiProvideTry_wait_error hp hi hv hm hw]⟩)))
        | ok r =>
          have hR : ReceiptAwaited w a g v tx r := ⟨hS, hw⟩
          cases he : a.events with
          | false =>
            exact Or.inr (Or.inr (Or.inr (Or.inr (Or.inl ⟨g, v, tx, r, hR, rfl,
              by simp [gcMultiprovide, multiProvideTry_no_events hp hi hv hm hw he]⟩))))
          | true =>
            cases hf : w.getParsedLogsAllEvents "GelatoCore" g.address r.blockHash tx.hash
                true with
            | error e =>
              exact Or.inr (Or.inr (Or.inr (Or.inr (Or.inr (Or.inr ⟨g, v, tx, r, e, hR, rfl,
                hf, by simp [gcMultiprovide, multiProvideTry_events hp hi hv hm hw he, hf]⟩)))))
            | ok u =>
              exact Or.inr (Or.inr (Or.inr (Or.inr (Or.inr (Or.inl ⟨g, v, tx, r, hR, rfl, hf,
                by simp [gcMultiprovide, multiProvideTry_events hp hi hv hm hw he, hf]⟩)))))

/-- A run in which no provider account is found. -/
theorem gcMultiprovide_no_provider (w : World) (a : TaskArgs)
    (h : ∀ p, ¬ ProviderFound w a p) :
    ∃ e, gcMultiprovide w a =
      ([Event.getSigners, Event.consoleError e, Event.exit 1], Outcome.exited 1) := by
  cases hs : w.getSigners with
  | error e => exact ⟨e, by simp [gcMultiprovide, multiProvideTry_getSigners_error hs]⟩
  | ok signers =>
    cases hp : signerAt signers a.providerindex with
    | none =>
      exact ⟨⟨"\n gelatoProvider not instantiated \n"⟩,
        by simp [gcMultiprovide, multiProvideTry_noSigner hs hp]⟩
    | some p => exact absurd ⟨signers, hs, hp⟩ (h p)

/-- The stages are functional: a run finds at most one provider account. -/
theorem providerFound_unique {w : World} {a : TaskArgs} {p q : Signer}
    (hp : ProviderFound w a p) (hq : ProviderFound w a q) : p = q := by
  obtain ⟨s, h1, h2⟩ := hp
  obtain ⟨s2, h3, h4⟩ := hq
  rw [h1] at h3
  cases h3
  rw [h2] at h4
  exact Option.some.inj h4

theorem instantiated_unique {w : World} {a : TaskArgs} {g g2 : Contract}
    (h : Instantiated w a g) (h2 : Instantiated w a g2) : g = g2 := by
  obtain ⟨p, hp, hi⟩ := h
  obtain ⟨q, hq, hj⟩ := h2
  cases providerFound_unique hp hq
  rw [hi] at hj
  cases hj
  rfl

theorem submitted_unique {w : World} {a : TaskArgs} {g g2 : Contract} {v v2 : Int} {tx tx2 : Tx}
    (h : Submitted w a g v tx) (h2 : Submitted w a g2 v2 tx2) : g = g2 ∧ v = v2 ∧ tx = tx2 := by
  obtain ⟨hi, hv, hm⟩ := h
  obtain ⟨hj, hv2, hm2⟩ := h2
  cases instantiated_unique hi hj
  rw [hv] at hv2
  cases hv2
  rw [hm] at hm2
  cases hm2
  exact ⟨rfl, rfl, rfl⟩

/-! ## Failure and success of a run -/

/-- The two descriptions of a run are exhaustive: either some step fails, or
every step succeeds. -/
theorem stepFails_or_allStepsSucceed (w : World) (a : TaskArgs) :
    (∃ e, StepFails w a e) ∨ ∃ g v tx r, AllStepsSucceed w a g v tx r := by
  cases hs : w.getSigners with
  | error e => exact Or.inl ⟨e, StepFails.getSigners hs⟩
  | ok signers =>
    cases hp : signerAt signers a.providerindex with
    | none => exact Or.inl ⟨_, StepFails.noSigner hs hp⟩
    | some p =>
      have hP : ProviderFound w a p := ⟨signers, hs, hp⟩
      cases hi : w.instantiateContract "GelatoCore" a.gelatocoreaddress p true with
      | error e => exact Or.inl ⟨e, StepFails.instantiateContract hP hi⟩
      | ok g =>
        have hI : Instantiated w a g := ⟨p, hP, hi⟩
        cases hv : w.parseEther a.funds with
        | error e => exact Or.inl ⟨e, StepFails.parseEther hI hv⟩
        | ok v =>
          cases hm : w.multiProvide g a.gelatoexecutor a.taskSpecs a.modules v with
          | error e => exact Or.inl ⟨e, StepFails.multiProvide hI hv hm⟩
          | ok tx =>
            have hS : Submitted w a g v tx := ⟨hI, hv, hm⟩
            cases hw : w.wait tx with
            | error e => exact Or.inl ⟨e, StepFails.wait hS hw⟩
            | ok r =>
              have hR : ReceiptAwaited w a g v tx r := ⟨hS, hw⟩
              cases hf : w.getParsedLogsAllEvents "GelatoCore" g.address r.blockHash tx.hash
                  true with
              | ok u => exact Or.inr ⟨g, v, tx, r, hR, fun _ => hf⟩
              | error e =>
                cases he : a.events with
                | true => exact Or.inl ⟨e, StepFails.getParsedLogsAllEvents hR he hf⟩
                | false => exact Or.inr ⟨g, v, tx, r, hR, fun h => by rw [he] at h; cases h⟩

/-- A run in which some step fails ends by printing that step's error and
exiting with code 1. -/
theorem gcMultiprovide_of_stepFails {w : World} {a : TaskArgs} {e : JsError}
    (h : StepFails w a e) :
    ∃ t, gcMultiprovide w a = (t ++ [Event.consoleError e, Event.exit 1], Outcome.exited 1) := by
  cases h with
  | getSigners h =>
    exact ⟨[Event.getSigners], by simp [gcMultiprovide, multiProvideTry_getSigners_error h]⟩
  | noSigner h hp =>
    exact ⟨[Event.getSigners], by simp [gcMultiprovide, multiProvideTry_noSigner h hp]⟩
  | @instantiateContract p e hp hi =>
    exact ⟨traceToInstantiate a p,
      by simp [gcMultiprovide, multiProvideTry_instantiate_error hp hi]⟩
  | @parseEther g e hI hv =>
    obtain ⟨p, hp, hi⟩ := hI
    exact ⟨traceToInstantiate a p, by simp [gcMultiprovide, multiProvideTry_parse_error hp hi hv]⟩
  | @multiProvide g v e hI hv hm =>
    obtain ⟨p, hp, hi⟩ := hI
    exact ⟨traceToSubmit a p g v,
      by simp [gcMultiprovide, multiProvideTry_submit_error hp hi hv hm]⟩
  | @wait g v tx e hS hw =>
    obtain ⟨⟨p, hp, hi⟩, hv, hm⟩ := hS
    exact ⟨traceToWait a p g v tx,
      by simp [gcMultiprovide, multiProvideTry_wait_error hp hi hv hm hw]⟩
  | @getParsedLogsAllEvents g v tx r e hR he hf =>
    obtain ⟨⟨⟨p, hp, hi⟩, hv, hm⟩, hw⟩ := hR
    exact ⟨traceToWait a p g v tx ++
        [Event.getParsedLogsAllEvents "GelatoCore" g.address r.blockHash tx.hash true],
      by simp [gcMultiprovide, multiProvideTry_events hp hi hv hm hw he, hf]⟩

/-- A run of the default-payload task in which some step fails ends by
printing that step's error and exiting with code 1. -/
theorem defaultPayload_of_stepFails {w : PayloadWorld} {log : Bool} {e : JsError}
    (h : PayloadStepFails w log e) :
    ∃ t, defaultPayload w log =
      (t ++ [PayloadEvent.consoleError e, PayloadEvent.exit 1], Outcome.exited 1) := by
  cases h with
  | eoa h =>
    exact ⟨[PayloadEvent.breConfig "EOA"], by simp [defaultPayload, defaultPayloadTry, h]⟩
  | userProxy h1 h2 =>
    exact ⟨[PayloadEvent.breConfig "EOA", PayloadEvent.breConfig "userProxy"],
      by simp [defaultPayload, defaultPayloadTry, h1, h2]⟩
  | erc20 h1 h2 h3 =>
    exact ⟨[PayloadEvent.breConfig "EOA", PayloadEvent.breConfig "userProxy",
        PayloadEvent.breConfig "erc20"],
      by simp [defaultPayload, defaultPayloadTry, h1, h2, h3]⟩
  | parseUnits h1 h2 h3 h4 =>
    exact ⟨[PayloadEvent.breConfig "EOA", PayloadEvent.breConfig "userProxy",
        PayloadEvent.breConfig "erc20"],
      by simp [defaultPayload, defaultPayloadTry, h1, h2, h3, h4]⟩
  | @abiEncodeWithSelector eoas userProxies erc20s amount e h1 h2 h3 h4 h5 =>
    exact ⟨[PayloadEvent.breConfig "EOA", PayloadEvent.breConfig "userProxy",
        PayloadEvent.breConfig "erc20",
        PayloadEvent.abiEncodeWithSelector "ActionBzxPtokenMintWithToken" "action"
          (inputs (JsValue.ofProperty eoas "luis") (JsValue.ofProperty userProxies "luis")
            (JsValue.ofProperty erc20s "DAI") (JsValue.bigNumber amount)
            (JsValue.ofProperty erc20s "dLETH2x")) log],
      by simp [defaultPayload, defaultPayloadTry, h1, h2, h3, h4, h5]⟩

/-- C4: when some step of `gc-multiprovide` fails (the signer list, the
signer at `providerindex`, contract instantiation, parsing `funds`, the
`multiProvide` call, waiting for the receipt, or the optional log fetch), the
run ends with the error being printed and the process exiting with code 1,
and no transaction hash is returned; the same holds for any failing step of
the default-payload task. -/
theorem failing_step_logs_and_exits_one :
    (∀ (w : World) (a : TaskArgs) (e : JsError), StepFails w a e →
      (∃ t, gcMultiprovide w a =
        (t ++ [Event.consoleError e, Event.exit 1], Outcome.exited 1)) ∧
      ∀ hash, (gcMultiprovide w a).2 ≠ Outcome.returned hash) ∧
    (∀ (w : PayloadWorld) (log : Bool) (e : JsError), PayloadStepFails w log e →
      (∃ t, defaultPayload w log =
        (t ++ [PayloadEvent.consoleError e, PayloadEvent.exit 1], Outcome.exited 1)) ∧
      ∀ payload, (defaultPayload w log).2 ≠ Outcome.returned payload) := by
  constructor
  · intro w a e h
    obtain ⟨t, ht⟩ := gcMultiprovide_of_stepFails h
    exact ⟨⟨t, ht⟩, fun hash hh => by rw [ht] at hh; cases hh⟩
  · intro w log e h
    obtain ⟨t, ht⟩ := defaultPayload_of_stepFails h
    exact ⟨⟨t, ht⟩, fun payload hh => by rw [ht] at hh; cases hh⟩

/-- With an empty signer list `gc-multiprovide` prints "gelatoProvider not
instantiated" and exits with 1; with an empty address book the default-payload
task prints the failed lookup and exits with 1. -/
theorem failing_step_logs_and_exits_one_witness :
    ((∃ t, gcMultiprovide (sampleWorld []) (taskArgsOf (sampleCli false none)) =
        (t ++ [Event.consoleError ⟨"\n gelatoProvider not instantiated \n"⟩, Event.exit 1],
          Outcome.exited 1)) ∧
      ∀ hash, (gcMultiprovide (sampleWorld []) (taskArgsOf (sampleCli false none))).2
        ≠ Outcome.returned hash) ∧
    ((∃ t, defaultPayload (samplePayloadWorld []) false =
        (t ++ [PayloadEvent.consoleError ⟨"EOA"⟩, PayloadEvent.exit 1], Outcome.exited 1)) ∧
      ∀ payload, (defaultPayload (samplePayloadWorld []) false).2 ≠ Outcome.returned payload) :=
  ⟨failing_step_logs_and_exits_one.1 (sampleWorld []) (taskArgsOf (sampleCli false none)) _
      (@StepFails.noSigner _ _ [] rfl rfl),
   failing_step_logs_and_exits_one.2 (samplePayloadWorld []) false _
      (PayloadStepFails.eoa rfl)⟩

/-- The run in which every step succeeds. -/
theorem gcMultiprovide_of_allStepsSucceed {w : World} {a : TaskArgs} {g : Contract} {v : Int}
    {tx : Tx} {r : Receipt} (h : AllStepsSucceed w a g v tx r) :
    ∃ p, gcMultiprovide w a =
      (traceToWait a p g v tx ++
        (if a.events then
          [Event.getParsedLogsAllEvents "GelatoCore" g.address r.blockHash tx.hash true]
         else []),
       Outcome.returned tx.hash) := by
  obtain ⟨⟨⟨⟨p, hp, hi⟩, hv, hm⟩, hw⟩, hf⟩ := h
  refine ⟨p, ?_⟩
  cases he : a.events with
  | false => simp [gcMultiprovide, multiProvideTry_no_events hp hi hv hm hw he]
  | true => simp [gcMultiprovide, multiProvideTry_events hp hi hv hm hw he, hf he]

/-- C5: when every step succeeds, `gc-multiprovide` calls
`GelatoCore.multiProvide` exactly once, with the arguments (gelatoexecutor,
taskSpecs, modules) in that order, then waits for the transaction that call
returned, and returns the hash of that same transaction. -/
theorem successful_run_submits_once_and_returns_hash (w : World) (a : TaskArgs) (g : Contract)
    (v : Int) (tx : Tx) (r : Receipt) (h : AllStepsSucceed w a g v tx r) :
    w.multiProvide g a.gelatoexecutor a.taskSpecs a.modules v = .ok tx ∧
    multiProvideCalls (gcMultiprovide w a).1 = [(a.gelatoexecutor, a.taskSpecs, a.modules)] ∧
    (∃ pre post, (gcMultiprovide w a).1 = pre ++ Event.wait tx :: post ∧
      Event.multiProvide g a.gelatoexecutor a.taskSpecs a.modules v ∈ pre) ∧
    (gcMultiprovide w a).2 = Outcome.returned tx.hash := by
  obtain ⟨p, hrun⟩ := gcMultiprovide_of_allStepsSucceed h
  refine ⟨h.1.1.2.2, ?_, ?_, ?_⟩
  · rw [hrun]
    cases he : a.events <;> cases hl : a.log <;>
      simp [traceToWait, traceToSubmit, traceToInstantiate, hl, multiProvideCalls]
  · refine ⟨traceToSubmit a p g v ++
      (if a.log then [Event.logTxHash ("\n\ntxHash multiProvide: " ++ tx.hash)] else []),
      (if a.events then
        [Event.getParsedLogsAllEvents "GelatoCore" g.address r.blockHash tx.hash true]
       else []), ?_, ?_⟩
    · rw [hrun]
      simp [traceToWait]
    · simp [traceToSubmit]
  · rw [hrun]

/-- Three signers, no optional parameter, `--events` set: one call with the
default arguments, and the hash of the submitted transaction is returned. -/
theorem successful_run_submits_once_and_returns_hash_witness :
    (sampleWorld sampleSigners).multiProvide ⟨"0xC0"⟩ AddressZero (Json.arr []) (Json.arr []) 0
      = .ok ⟨"0xAA"⟩ ∧
    multiProvideCalls (gcMultiprovide (sampleWorld sampleSigners)
      (taskArgsOf (sampleCli true none))).1 = [(AddressZero, Json.arr [], Json.arr [])] ∧
    (∃ pre post, (gcMultiprovide (sampleWorld sampleSigners)
        (taskArgsOf (sampleCli true none))).1 = pre ++ Event.wait ⟨"0xAA"⟩ :: post ∧
      Event.multiProvide ⟨"0xC0"⟩ AddressZero (Json.arr []) (Json.arr []) 0 ∈ pre) ∧
    (gcMultiprovide (sampleWorld sampleSigners) (taskArgsOf (sampleCli true none))).2
      = Outcome.returned "0xAA" :=
  successful_run_submits_once_and_returns_hash (sampleWorld sampleSigners)
    (taskArgsOf (sampleCli true none)) ⟨"0xC0"⟩ 0 ⟨"0xAA"⟩ ⟨"0xBB"⟩
    ⟨⟨⟨⟨⟨"0x03"⟩, ⟨sampleSigners, rfl, rfl⟩, rfl⟩, rfl, rfl⟩, rfl⟩, fun _ => rfl⟩

/-! ## The provider account -/

theorem signerAt_two (signers : List Signer) : signerAt signers 2 = signers.get? 2 := by
  simp [signerAt]

theorem instantiationSigners_of_provider {w : World} {a : TaskArgs} {p : Signer}
    (hp : ProviderFound w a p) : instantiationSigners (gcMultiprovide w a).1 = [p] := by
  rcases gcMultiprovide_of_provider hp with
    ⟨e, _, h⟩ | ⟨g, e, _, _, h⟩ | ⟨g, v, e, _, _, _, h⟩ | ⟨g, v, tx, e, _, _, h⟩ |
    ⟨g, v, tx, r, _, _, h⟩ | ⟨g, v, tx, r, _, _, _, h⟩ | ⟨g, v, tx, r, e, _, _, _, h⟩ <;>
  · rw [h]
    cases hl : a.log <;>
      simp [traceToWait, traceToSubmit, traceToInstantiate, hl, instantiationSigners]

/-- C7: when `providerindex` is not supplied, for every signer list with at
least three accounts the one signer handed to contract instantiation is the
account at zero-based index 2, and for every signer list with fewer than
three accounts the run consists of printing the error "gelatoProvider not
instantiated" and exiting with code 1, with no contract instantiated and no
transaction submitted. -/
theorem default_provider_is_third_signer (w : World) (c : CliArgs) (signers : List Signer)
    (hc : c.providerindex = none) (hs : w.getSigners = .ok signers) :
    (∀ h : 3 ≤ signers.length,
      instantiationSigners (gcMultiprovide w (taskArgsOf c)).1 = [signers.get ⟨2, h⟩]) ∧
    (signers.length < 3 →
      gcMultiprovide w (taskArgsOf c) =
        ([Event.getSigners, Event.consoleError ⟨"\n gelatoProvider not instantiated \n"⟩,
          Event.exit 1], Outcome.exited 1)) := by
  have hidx : (taskArgsOf c).providerindex = 2 := by simp [taskArgsOf, hc]
  constructor
  · intro h
    apply instantiationSigners_of_provider
    refine ⟨signers, hs, ?_⟩
    rw [hidx, signerAt_two, List.get?_eq_get h]
  · intro h
    have hp : signerAt signers (taskArgsOf c).providerindex = none := by
      rw [hidx, signerAt_two]
      exact List.get?_eq_none.mpr (by omega)
    simp [gcMultiprovide, multiProvideTry_noSigner hs hp]

/-- With the three sample accounts the third one is used; with the first two
only, the run stops with the error. -/
theorem default_provider_is_third_signer_witness :
    instantiationSigners (gcMultiprovide (sampleWorld sampleSigners)
      (taskArgsOf (sampleCli false none))).1 = [⟨"0x03"⟩] ∧
    gcMultiprovide (sampleWorld [⟨"0x01"⟩, ⟨"0x02"⟩]) (taskArgsOf (sampleCli false none)) =
      ([Event.getSigners, Event.consoleError ⟨"\n gelatoProvider not instantiated \n"⟩,
        Event.exit 1], Outcome.exited 1) :=
  ⟨(default_provider_is_third_signer (sampleWorld sampleSigners) (sampleCli false none)
      sampleSigners rfl rfl).1 (by decide),
   (default_provider_is_third_signer (sampleWorld [⟨"0x01"⟩, ⟨"0x02"⟩]) (sampleCli false none)
      [⟨"0x01"⟩, ⟨"0x02"⟩] rfl rfl).2 (by decide)⟩

/-! ## The optional log fetch -/

/-- In every run either no log fetch happens, and then the flag is off or the
receipt was never obtained, or the flag is on and exactly one fetch happens,
after the submission and the wait, with the values those steps produced. -/
theorem logFetches_gcMultiprovide (w : World) (a : TaskArgs) :
    (logFetches (gcMultiprovide w a).1 = [] ∧
      (a.events = false ∨ ∀ g v tx r, ¬ ReceiptAwaited w a g v tx r)) ∨
    (a.events = true ∧ ∃ g v tx r pre post, ReceiptAwaited w a g v tx r ∧
      logFetches (gcMultiprovide w a).1 = [("GelatoCore", g.address, r.blockHash, tx.hash, true)] ∧
      (gcMultiprovide w a).1 =
        pre ++ Event.getParsedLogsAllEvents "GelatoCore" g.address r.blockHash tx.hash true
          :: post ∧
      Event.multiProvide g a.gelatoexecutor a.taskSpecs a.modules v ∈ pre ∧
      Event.wait tx ∈ pre) := by
  by_cases hex : ∃ p, ProviderFound w a p
  · obtain ⟨p, hp⟩ := hex
    rcases gcMultiprovide_of_provider hp with
      ⟨e, hi, h⟩ | ⟨g, e, hI, hv, h⟩ | ⟨g, v, e, hI, hv, hm, h⟩ | ⟨g, v, tx, e, hS, hw, h⟩ |
      ⟨g, v, tx, r, hR, he, h⟩ | ⟨g, v, tx, r, hR, he, hf, h⟩ | ⟨g, v, tx, r, e, hR, he, hf, h⟩
    · refine Or.inl ⟨?_, Or.inr ?_⟩
      · rw [h]
        cases hl : a.log <;> simp [traceToInstantiate, hl, logFetches]
      · rintro g v tx r ⟨⟨⟨q, hq, hj⟩, _, _⟩, _⟩
        cases providerFound_unique hp hq
        rw [hi] at hj
        cases hj
    · refine Or.inl ⟨?_, Or.inr ?_⟩
      · rw [h]
        cases hl : a.log <;> simp [traceToInstantiate, hl, logFetches]
      · rintro g2 v tx r ⟨⟨_, hv2, _⟩, _⟩
        rw [hv] at hv2
        cases hv2
    · refine Or.inl ⟨?_, Or.inr ?_⟩
      · rw [h]
        cases hl : a.log <;> simp [traceToSubmit, traceToInstantiate, hl, logFetches]
      · rintro g2 v2 tx r ⟨⟨hI2, hv2, hm2⟩, _⟩
        cases instantiated_unique hI hI2
        rw [hv] at hv2
        cases hv2
        rw [hm] at hm2
        cases hm2
    · refine Or.inl ⟨?_, Or.inr ?_⟩
      · rw [h]
        cases hl : a.log <;>
          simp [traceToWait, traceToSubmit, traceToInstantiate, hl, logFetches]
      · rintro g2 v2 tx2 r ⟨hS2, hw2⟩
        obtain ⟨rfl, rfl, rfl⟩ := submitted_unique hS hS2
        rw [hw] at hw2
        cases hw2
    · refine Or.inl ⟨?_, Or.inl he⟩
      rw [h]
      exact logFetches_traceToWait a p g v tx
    · refine Or.inr ⟨he, g, v, tx, r, traceToWait a p g v tx, [], hR, ?_, ?_, ?_, ?_⟩
      · rw [h]
        cases hl : a.log <;>
          simp [traceToWait, traceToSubmit, traceToInstantiate, hl, logFetches]
      · rw [h]
      · simp [traceToWait, traceToSubmit]
      · simp [traceToWait]
    · refine Or.inr ⟨he, g, v, tx, r, traceToWait a p g v tx,
        [Event.consoleError e, Event.exit 1], hR, ?_, ?_, ?_, ?_⟩
      · rw [h]
        cases hl : a.log <;>
          simp [traceToWait, traceToSubmit, traceToInstantiate, hl, logFetches]
      · rw [h]
        simp
      · simp [traceToWait, traceToSubmit]
      · simp [traceToWait]
  · obtain ⟨e, h⟩ := gcMultiprovide_no_provider w a (fun p hp => hex ⟨p, hp⟩)
    refine Or.inl ⟨?_, Or.inr ?_⟩
    · rw [h]
      rfl
    · rintro g v tx r ⟨⟨⟨q, hq, _⟩, _, _⟩, _⟩
      exact hex ⟨q, hq⟩

/-- C9, as stated, fails: with the `events` flag set and an empty signer list
the run stops before any log fetch, so "executed if and only if the flag is
set" does not hold in every run. -/
theorem log_fetch_iff_events_refuted :
    ¬ ∀ (w : World) (a : TaskArgs),
      (logFetches (gcMultiprovide w a).1 ≠ [] ↔ a.events = true) := by
  intro h
  exact (h (sampleWorld []) (taskArgsOf (sampleCli true none))).mpr rfl rfl

/-- C9, amended: in every run the log fetch is executed only if the `events`
flag is set; in every run in which the transaction was submitted and its
receipt obtained it is executed if and only if the flag is set; and whenever
it is executed, it comes after the `multiProvide` call and the wait, and it is
called with "GelatoCore", the address of the instantiated contract, the block
hash of the receipt and the hash of the submitted transaction. -/
theorem log_fetch_only_after_receipt (w : World) (a : TaskArgs) :
    (logFetches (gcMultiprovide w a).1 ≠ [] → a.events = true) ∧
    (∀ g v tx r, ReceiptAwaited w a g v tx r →
      (logFetches (gcMultiprovide w a).1 ≠ [] ↔ a.events = true)) ∧
    (∀ f ∈ logFetches (gcMultiprovide w a).1, ∃ g v tx r pre post,
      ReceiptAwaited w a g v tx r ∧
      f = ("GelatoCore", g.address, r.blockHash, tx.hash, true) ∧
      (gcMultiprovide w a).1 =
        pre ++ Event.getParsedLogsAllEvents "GelatoCore" g.address r.blockHash tx.hash true
          :: post ∧
      Event.multiProvide g a.gelatoexecutor a.taskSpecs a.modules v ∈ pre ∧
      Event.wait tx ∈ pre) := by
  rcases logFetches_gcMultiprovide w a with ⟨hnil, hwhy⟩ | ⟨he, g, v, tx, r, pre, post, hR, hl, ht, hm, hw⟩
  · refine ⟨fun hne => absurd hnil hne, ?_, ?_⟩
    · intro g v tx r hR
      rcases hwhy with he | hno
      · simp [hnil, he]
      · exact absurd hR (hno g v tx r)
    · intro f hf
      rw [hnil] at hf
      cases hf
  · refine ⟨fun _ => he, fun _ _ _ _ _ => ?_, ?_⟩
    · simp [hl, he]
    · intro f hf
      rw [hl] at hf
      refine ⟨g, v, tx, r, pre, post, hR, ?_, ht, hm, hw⟩
      simpa using hf

/-- With three signers and `--events` the fetch happens, with the values of
the sample world. -/
theorem log_fetch_only_after_receipt_witness :
    (logFetches (gcMultiprovide (sampleWorld sampleSigners)
        (taskArgsOf (sampleCli true none))).1 ≠ [] ↔
      (taskArgsOf (sampleCli true none)).events = true) ∧
    ∃ g v tx r pre post,
      ReceiptAwaited (sampleWorld sampleSigners) (taskArgsOf (sampleCli true none)) g v tx r ∧
      (("GelatoCore", "0xC0", "0xBB", "0xAA", true) :
        String × String × String × String × Bool)
        = ("GelatoCore", g.address, r.blockHash, tx.hash, true) ∧
      (gcMultiprovide (sampleWorld sampleSigners) (taskArgsOf (sampleCli true none))).1 =
        pre ++ Event.getParsedLogsAllEvents "GelatoCore" g.address r.blockHash tx.hash true
          :: post ∧
      Event.multiProvide g (taskArgsOf (sampleCli true none)).gelatoexecutor
        (taskArgsOf (sampleCli true none)).taskSpecs
        (taskArgsOf (sampleCli true none)).modules v ∈ pre ∧
      Event.wait tx ∈ pre :=
  ⟨(log_fetch_only_after_receipt (sampleWorld sampleSigners)
      (taskArgsOf (sampleCli true none))).2.1 ⟨"0xC0"⟩ 0 ⟨"0xAA"⟩ ⟨"0xBB"⟩
      ⟨⟨⟨⟨"0x03"⟩, ⟨sampleSigners, rfl, rfl⟩, rfl⟩, rfl, rfl⟩, rfl⟩,
   (log_fetch_only_after_receipt (sampleWorld sampleSigners)
      (taskArgsOf (sampleCli true none))).2.2 _ (List.mem_singleton.mpr rfl)⟩

/-! ## Contract names handed to other tasks -/

theorem contractNames_gcMultiprovide (w : World) (a : TaskArgs) :
    ∀ name ∈ contractNames (gcMultiprovide w a).1, name = "GelatoCore" := by
  by_cases hex : ∃ p, ProviderFound w a p
  · obtain ⟨p, hp⟩ := hex
    rcases gcMultiprovide_of_provider hp with
      ⟨e, _, h⟩ | ⟨g, e, _, _, h⟩ | ⟨g, v, e, _, _, _, h⟩ | ⟨g, v, tx, e, _, _, h⟩ |
      ⟨g, v, tx, r, _, _, h⟩ | ⟨g, v, tx, r, _, _, _, h⟩ | ⟨g, v, tx, r, e, _, _, _, h⟩ <;>
    · rw [h]
      cases hl : a.log <;>
        simp [traceToWait, traceToSubmit, traceToInstantiate, hl, contractNames]
  · obtain ⟨e, h⟩ := gcMultiprovide_no_provider w a (fun p hp => hex ⟨p, hp⟩)
    rw [h]
    simp [contractNames]

theorem payloadContractNames_defaultPayload (w : PayloadWorld) (log : Bool) :
    ∀ name ∈ payloadContractNames (defaultPayload w log).1,
      name = "ActionBzxPtokenMintWithToken" := by
  unfold defaultPayload defaultPayloadTry
  cases w.breConfig "EOA" with
  | error e => simp [payloadContractNames]
  | ok eoas =>
    cases w.breConfig "userProxy" with
    | error e => simp [payloadContractNames]
    | ok userProxies =>
      cases w.breConfig "erc20" with
      | error e => simp [payloadContractNames]
      | ok erc20s =>
        cases w.parseUnits "10" 18 with
        | error e => simp [payloadContractNames]
        | ok amount =>
          cases h5 : w.abiEncodeWithSelector "ActionBzxPtokenMintWithToken" "action"
            (inputs (JsValue.ofProperty eoas "luis") (JsValue.ofProperty userProxies "luis")
              (JsValue.ofProperty erc20s "DAI") (JsValue.bigNumber amount)
              (JsValue.ofProperty erc20s "dLETH2x")) log <;>
            simp [payloadContractNames, h5]

/-- C2: the contract names the tasks refer to by literal, "GelatoCore" and
"ActionBzxPtokenMintWithToken", are members of the kovan and of the rinkeby
contract list; and every contract name that a run of `gc-multiprovide` (for
`instantiateContract` and for `event-getparsedlogsallevents`) or of the
default-payload task hands to another task is one of these two. -/
theorem referenced_contracts_listed :
    (∀ name ∈ referencedContracts, name ∈ kovan.contracts ∧ name ∈ rinkeby.contracts) ∧
    (∀ (w : World) (a : TaskArgs), ∀ name ∈ contractNames (gcMultiprovide w a).1,
      name ∈ referencedContracts) ∧
    (∀ (w : PayloadWorld) (log : Bool), ∀ name ∈ payloadContractNames (defaultPayload w log).1,
      name ∈ referencedContracts) := by
  refine ⟨by decide, ?_, ?_⟩
  · intro w a name h
    rw [contractNames_gcMultiprovide w a name h]
    decide
  · intro w log name h
    rw [payloadContractNames_defaultPayload w log name h]
    decide

/-- The name "GelatoCore" is in both lists, and it is the name a successful run with
`--events` hands over, twice. -/
theorem referenced_contracts_listed_witness :
    ("GelatoCore" ∈ kovan.contracts ∧ "GelatoCore" ∈ rinkeby.contracts) ∧
    contractNames (gcMultiprovide (sampleWorld sampleSigners)
      (taskArgsOf (sampleCli true none))).1 = ["GelatoCore", "GelatoCore"] ∧
    "GelatoCore" ∈ referencedContracts :=
  ⟨referenced_contracts_listed.1 "GelatoCore" (by decide), rfl,
   referenced_contracts_listed.2.1 (sampleWorld sampleSigners)
     (taskArgsOf (sampleCli true none)) "GelatoCore" (List.mem_cons_self _ _)⟩

/-! ## The unit conversion on decimal numerals -/

namespace ethers

theorem isDigit_ne_dot {c : Char} (h : isDigit c = true) : c ≠ '.' := by
  intro hc; subst hc; revert h; decide

theorem isDigit_ne_minus {c : Char} (h : isDigit c = true) : c ≠ '-' := by
  intro hc; subst hc; revert h; decide

theorem digitsToNat_append (l : List Char) (c : Char) :
    digitsToNat (l ++ [c]) = 10 * digitsToNat l + (c.toNat - '0'.toNat) := by
  simp [digitsToNat, List.foldl_append]

theorem digitsToNat_append_zeros (l : List Char) (k : Nat) :
    digitsToNat (l ++ List.replicate k '0') = digitsToNat l * 10 ^ k := by
  induction k with
  | zero => simp
  | succ k ih =>
    rw [List.replicate_succ', ← List.append_assoc, digitsToNat_append, ih]
    simp [pow_succ]
    ring

theorem splitOnDot_digits {l : List Char} (h : l.all isDigit = true) : splitOnDot l = [l] := by
  induction l with
  | nil => rfl
  | cons c cs ih =>
    simp only [List.all_cons, Bool.and_eq_true] at h
    simp [splitOnDot, isDigit_ne_dot h.1, ih h.2]

theorem splitOnDot_digits_dot {w : List Char} (h : w.all isDigit = true) (r : List Char) :
    splitOnDot (w ++ '.' :: r) = w :: splitOnDot r := by
  induction w with
  | nil => simp [splitOnDot]
  | cons c cs ih =>
    simp only [List.all_cons, Bool.and_eq_true] at h
    simp [splitOnDot, isDigit_ne_dot h.1, ih h.2]

theorem bigNumberify_digits {l : List Char} (h : l.all isDigit = true) :
    bigNumberify l = .ok (digitsToNat l : Int) := by
  unfold bigNumberify
  split
  · rename_i rest
    simp only [List.all_cons, Bool.and_eq_true] at h
    exact absurd rfl (isDigit_ne_minus h.1)
  · simp [h]


/-- The replacement `if (!s) s = "0"` keeps digit strings digit strings. -/
theorem orZero_all_digits {l : List Char} (h : l.all isDigit = true) :
    (if l.isEmpty then ['0'] else l).all isDigit = true := by
  cases l with
  | nil => decide
  | cons c cs => simpa using h

theorem orZero_value (l : List Char) :
    digitsToNat (if l.isEmpty then ['0'] else l) = digitsToNat l := by
  cases l with
  | nil => decide
  | cons c cs => simp

theorem orZero_length_le {l : List Char} {n : Nat} (h : l.length ≤ n) (hn : 1 ≤ n) :
    (if l.isEmpty then ['0'] else l).length ≤ n := by
  cases l with
  | nil => simpa using hn
  | cons c cs => simpa using h

/-- The digits after the point, padded to `n` places, are worth the digits
times the missing power of ten. -/
theorem padded_fraction_value (f : List Char) (n : Nat) :
    digitsToNat ((if f.isEmpty then ['0'] else f) ++
      List.replicate (n - (if f.isEmpty then ['0'] else f).length) '0')
      = digitsToNat f * 10 ^ (n - f.length) := by
  rw [digitsToNat_append_zeros, orZero_value]
  cases f with
  | nil => simp [digitsToNat]
  | cons c cs => simp

/-- The test of the regular expression on a body that does not start with a
minus sign, with or without a sign in front. -/
theorem matches_body {c : Char} {cs : List Char} (hc : c ≠ '-')
    (hall : (c :: cs).all (fun c => isDigit c || c == '.' || c == ',') = true) (neg : Bool) :
    matchesDecimal ((if neg then ['-'] else []) ++ c :: cs) = true := by
  cases neg with
  | true =>
    simp only [matchesDecimal, if_true, List.singleton_append]
    simpa using hall
  | false =>
    simp only [matchesDecimal, Bool.false_eq_true, if_false, List.nil_append]
    split
    · rename_i rest heq
      cases heq
      exact absurd rfl hc
    · simpa using hall


/-- The conversion on a numeral whose body splits into the given whole part
and digits after the point. -/
theorem parseUnitsChars_body (neg : Bool) (c : Char) (cs whole f : List Char)
    (hc : c ≠ '-')
    (hall : (c :: cs).all (fun c => isDigit c || c == '.' || c == ',') = true)
    (hnd : c :: cs ≠ ['.'])
    (hsplit : (splitOnDot (c :: cs) = [whole] ∧ f = []) ∨ splitOnDot (c :: cs) = [whole, f])
    (hw : whole.all isDigit = true) (hf : f.all isDigit = true) (hlen : f.length ≤ 18) :
    parseUnitsChars ((if neg then ['-'] else []) ++ c :: cs) 18 =
      .ok ((if neg then -1 else 1) *
        ((digitsToNat whole : Int) * 10 ^ 18 + (digitsToNat f : Int) * 10 ^ (18 - f.length))) := by
  have hm := matches_body hc hall neg
  have hwv := bigNumberify_digits (orZero_all_digits hw)
  have hpad : ((if f.isEmpty then ['0'] else f) ++
      List.replicate (18 - (if f.isEmpty then ['0'] else f).length) '0').all isDigit = true := by
    rw [List.all_append, orZero_all_digits hf]
    simp [isDigit]
  have hfv := bigNumberify_digits hpad
  rw [padded_fraction_value] at hfv
  rw [orZero_value] at hwv
  have hfl := orZero_length_le hlen (by decide : 1 ≤ 18)
  simp only [List.isEmpty_iff] at hwv hfv hfl
  have hd0 : digitsToNat [] = 0 := rfl
  cases neg with
  | true =>
    simp only [if_true, List.singleton_append] at hm ⊢
    simp only [parseUnitsChars, hm]
    rcases hsplit with ⟨h, rfl⟩ | h
    · simp at hfv
      simp [hnd, h, hwv, hfv, hd0]
    · simp [hnd, h, hwv, hfv, hfl]
  | false =>
    simp only [Bool.false_eq_true, if_false, List.nil_append] at hm ⊢
    simp only [parseUnitsChars, hm]
    rcases hsplit with ⟨h, rfl⟩ | h
    · simp at hfv
      simp [hnd, h, hwv, hfv, hc, hd0]
    · simp [hnd, h, hwv, hfv, hfl, hc]


/-! ### Decimal digits -/

theorem isDigit_of_decimalDigit {c : Char} (h : c ∈ decimalDigits) : isDigit c = true := by
  simp only [decimalDigits, List.mem_cons, List.mem_singleton, List.not_mem_nil, or_false] at h
  rcases h with h | h | h | h | h | h | h | h | h | h <;> subst h <;> decide

theorem digit_code_eq_digitOf {c : Char} (h : c ∈ decimalDigits) :
    c.toNat - '0'.toNat = digitOf c := by
  simp only [decimalDigits, List.mem_cons, List.mem_singleton, List.not_mem_nil, or_false] at h
  rcases h with h | h | h | h | h | h | h | h | h | h <;> subst h <;> decide

theorem all_isDigit_of_decimalDigits {l : List Char} (h : ∀ c ∈ l, c ∈ decimalDigits) :
    l.all isDigit = true := by
  rw [List.all_eq_true]
  exact fun c hc => isDigit_of_decimalDigit (h c hc)

theorem foldl_digits_shift (l : List Char) (n : Nat) :
    l.foldl (fun n c => 10 * n + (c.toNat - '0'.toNat)) n
      = n * 10 ^ l.length + l.foldl (fun n c => 10 * n + (c.toNat - '0'.toNat)) 0 := by
  induction l generalizing n with
  | nil => simp
  | cons c cs ih =>
    simp only [List.foldl_cons, List.length_cons]
    rw [ih (10 * n + (c.toNat - '0'.toNat)), ih (10 * 0 + (c.toNat - '0'.toNat))]
    ring

theorem digitsToNat_cons (c : Char) (cs : List Char) :
    digitsToNat (c :: cs) = (c.toNat - '0'.toNat) * 10 ^ cs.length + digitsToNat cs := by
  unfold digitsToNat
  rw [List.foldl_cons, foldl_digits_shift]
  simp

/-- The library's reading of a digit string is the number the digits write. -/
theorem digitsToNat_eq_wholePartValue {l : List Char} (h : ∀ c ∈ l, c ∈ decimalDigits) :
    (digitsToNat l : ℚ) = wholePartValue l := by
  induction l with
  | nil => simp [digitsToNat, wholePartValue]
  | cons c cs ih =>
    rw [digitsToNat_cons, wholePartValue, ← ih (fun x hx => h x (List.mem_cons_of_mem _ hx)),
      digit_code_eq_digitOf (h c (List.mem_cons_self _ _))]
    push_cast
    ring

/-- Read after the point, the same digits are worth their reading divided by
the power of ten of their count. -/
theorem digitsToNat_div_eq_fractionPartValue {l : List Char}
    (h : ∀ c ∈ l, c ∈ decimalDigits) :
    (digitsToNat l : ℚ) / 10 ^ l.length = fractionPartValue l := by
  induction l with
  | nil => simp [digitsToNat, fractionPartValue]
  | cons c cs ih =>
    have hne : (10 : ℚ) ^ cs.length ≠ 0 := pow_ne_zero _ (by norm_num)
    rw [digitsToNat_cons, fractionPartValue, ← ih (fun x hx => h x (List.mem_cons_of_mem _ hx)),
      digit_code_eq_digitOf (h c (List.mem_cons_self _ _)), List.length_cons, pow_succ]
    push_cast
    rw [← div_div, add_div, mul_div_assoc, div_self hne, mul_one]

/-- The conversion of a decimal numeral with at most 18 digits after the
point. -/
theorem parseEther_decimal(negative : Bool) (whole : List Char)
    (fraction : Option (List Char)) (h : IsDecimal18 whole fraction) :
    parseEther (decimalString negative whole fraction) =
      .ok ((if negative then -1 else 1) *
        ((digitsToNat whole : Int) * 10 ^ 18 +
          (digitsToNat (fraction.getD []) : Int) * 10 ^ (18 - (fraction.getD []).length))) := by
  obtain ⟨hwd, hfd, hlen, hne⟩ := h
  have hw := all_isDigit_of_decimalDigits hwd
  have hf := all_isDigit_of_decimalDigits hfd
  have hwall : ∀ x ∈ whole, isDigit x = true := by simpa using hw
  have hfall : ∀ x ∈ fraction.getD [], isDigit x = true := by simpa using hf
  unfold parseEther parseUnits decimalString
  cases fraction with
  | none =>
    simp only [Option.getD_none, ne_eq, not_true_eq_false, or_false] at hne
    cases hwc : whole with
    | nil => exact absurd hwc hne
    | cons c cs =>
      subst hwc
      simp only [List.append_nil, List.append_assoc, Option.getD_none]
      refine parseUnitsChars_body negative c cs (c :: cs) [] (isDigit_ne_minus (hwall c (by simp)))
        ?_ ?_ (Or.inl ⟨splitOnDot_digits hw, rfl⟩) hw rfl (by simp)
      · rw [List.all_eq_true]
        intro x hx
        simp [hwall x hx]
      · intro hc
        cases hc
        exact absurd rfl (isDigit_ne_dot (hwall '.' (by simp)))
  | some f =>
    simp only [Option.getD_some] at hf hlen hne hfall ⊢
    have hall : (whole ++ '.' :: f).all (fun c => isDigit c || c == '.' || c == ',') = true := by
      rw [List.all_eq_true]
      intro x hx
      rcases List.mem_append.mp hx with hx | hx
      · simp [hwall x hx]
      · rcases List.mem_cons.mp hx with hx | hx
        · simp [hx]
        · simp [hfall x hx]
    have hsplit : splitOnDot (whole ++ '.' :: f) = [whole, f] := by
      rw [splitOnDot_digits_dot hw, splitOnDot_digits hf]
    have hnd : whole ++ '.' :: f ≠ ['.'] := by
      intro hc
      cases whole with
      | nil =>
        simp only [List.nil_append, List.cons.injEq, true_and] at hc
        simp [hc] at hne
      | cons c cs =>
        simp only [List.cons_append, List.cons.injEq] at hc
        have := hc.2
        simp at this
    cases hb : whole ++ '.' :: f with
    | nil => simp at hb
    | cons c cs =>
      have hc : c ≠ '-' := by
        cases whole with
        | nil =>
          simp only [List.nil_append, List.cons.injEq] at hb
          rw [← hb.1]
          decide
        | cons d ds =>
          simp only [List.cons_append, List.cons.injEq] at hb
          rw [← hb.1]
          exact isDigit_ne_minus (hwall d (by simp))
      simp only [List.append_assoc]
      rw [hb]
      rw [hb] at hall hsplit hnd
      exact parseUnitsChars_body negative c cs whole f hc hall hnd (Or.inr hsplit) hw hf hlen


end ethers

theorem scaled_value (s : Int) (W F n m : Nat) :
    (((s * ((W : Int) * 10 ^ (n + m) + (F : Int) * 10 ^ m) : Int)) : ℚ)
      = (s : ℚ) * ((W : ℚ) + (F : ℚ) / 10 ^ n) * 10 ^ (n + m) := by
  have hne : (10 : ℚ) ^ n ≠ 0 := pow_ne_zero _ (by norm_num)
  push_cast
  rw [pow_add]
  field_simp
  ring

/-- The integer the conversion yields is the numeral's value times 10^18. -/
theorem wei_eq_decimalValue (negative : Bool) (whole : List Char)
    (fraction : Option (List Char)) (h : IsDecimal18 whole fraction) :
    ((((if negative then -1 else 1) *
        ((ethers.digitsToNat whole : Int) * 10 ^ 18 +
          (ethers.digitsToNat (fraction.getD []) : Int) *
            10 ^ (18 - (fraction.getD []).length)) : Int)) : ℚ)
      = decimalValue negative whole fraction * 10 ^ 18 := by
  obtain ⟨hwd, hfd, hlen, _⟩ := h
  have hs := scaled_value (if negative then -1 else 1) (ethers.digitsToNat whole)
    (ethers.digitsToNat (fraction.getD [])) (fraction.getD []).length
    (18 - (fraction.getD []).length)
  rw [show (fraction.getD []).length + (18 - (fraction.getD []).length) = 18 by omega] at hs
  rw [hs, ethers.digitsToNat_eq_wholePartValue hwd,
    ethers.digitsToNat_div_eq_fractionPartValue hfd]
  unfold decimalValue
  cases negative <;> simp

/-! ## The value attached to the transaction -/

/-- When `funds` parses, the parsed amount is the only value a run can attach
to a `multiProvide` call, and it is attached once the contract is
instantiated. -/
theorem valuesSent_gcMultiprovide {w : World} {a : TaskArgs} {v : Int}
    (hv : w.parseEther a.funds = .ok v) :
    (∀ x ∈ valuesSent (gcMultiprovide w a).1, x = v) ∧
    (∀ g, Instantiated w a g → valuesSent (gcMultiprovide w a).1 = [v]) := by
  have key : valuesSent (gcMultiprovide w a).1 = [v] ∨
      (valuesSent (gcMultiprovide w a).1 = [] ∧ ∀ g, ¬ Instantiated w a g) := by
    by_cases hex : ∃ p, ProviderFound w a p
    · obtain ⟨p, hp⟩ := hex
      rcases gcMultiprovide_of_provider hp with
        ⟨e, hi, h⟩ | ⟨g, e, _, hv2, h⟩ | ⟨g, v2, e, _, hv2, _, h⟩ | ⟨g, v2, tx, e, hS, _, h⟩ |
        ⟨g, v2, tx, r, hR, _, h⟩ | ⟨g, v2, tx, r, hR, _, _, h⟩ | ⟨g, v2, tx, r, e, hR, _, _, h⟩
      · refine Or.inr ⟨?_, ?_⟩
        · rw [h]
          cases hl : a.log <;> simp [traceToInstantiate, hl, valuesSent]
        · rintro g ⟨q, hq, hj⟩
          cases providerFound_unique hp hq
          rw [hi] at hj
          cases hj
      · rw [hv] at hv2
        cases hv2
      · rw [hv] at hv2
        cases hv2
        left
        rw [h]
        cases hl : a.log <;> simp [traceToSubmit, traceToInstantiate, hl, valuesSent]
      · have hv2 := hS.2.1
        rw [hv] at hv2
        cases hv2
        left
        rw [h]
        cases hl : a.log <;> simp [traceToWait, traceToSubmit, traceToInstantiate, hl, valuesSent]
      · have hv2 := hR.1.2.1
        rw [hv] at hv2
        cases hv2
        left
        rw [h]
        exact valuesSent_traceToWait a p g v tx
      · have hv2 := hR.1.2.1
        rw [hv] at hv2
        cases hv2
        left
        rw [h]
        cases hl : a.log <;> simp [traceToWait, traceToSubmit, traceToInstantiate, hl, valuesSent]
      · have hv2 := hR.1.2.1
        rw [hv] at hv2
        cases hv2
        left
        rw [h]
        cases hl : a.log <;> simp [traceToWait, traceToSubmit, traceToInstantiate, hl, valuesSent]
    · obtain ⟨e, h⟩ := gcMultiprovide_no_provider w a (fun p hp => hex ⟨p, hp⟩)
      refine Or.inr ⟨?_, ?_⟩
      · rw [h]
        rfl
      · rintro g ⟨q, hq, _⟩
        exact hex ⟨q, hq⟩
  rcases key with h | ⟨h, hno⟩
  · refine ⟨fun x hx => ?_, fun _ _ => h⟩
    rw [h] at hx
    simpa using hx
  · refine ⟨fun x hx => ?_, fun g hg => absurd hg (hno g)⟩
    rw [h] at hx
    cases hx

/-- C8: with `utils.parseEther` of ethers, for every decimal numeral `funds`
with at most 18 digits after the point the value attached to the
`multiProvide` call is the integer `funds × 10^18`: no call of the run carries
another value, and once the contract is instantiated the call is made with
exactly that value; when `funds` is not supplied the value is 0 wei. -/
theorem multiProvide_value_is_funds_in_wei :
    (∀ (w : World) (a : TaskArgs) (negative : Bool) (whole : List Char)
        (fraction : Option (List Char)),
      w.parseEther = ethers.parseEther → a.funds = decimalString negative whole fraction →
      IsDecimal18 whole fraction →
      ∃ v : Int, (v : ℚ) = decimalValue negative whole fraction * 10 ^ 18 ∧
        (∀ x ∈ valuesSent (gcMultiprovide w a).1, x = v) ∧
        (∀ g, Instantiated w a g → valuesSent (gcMultiprovide w a).1 = [v])) ∧
    (∀ (w : World) (c : CliArgs), w.parseEther = ethers.parseEther → c.funds = none →
      (∀ x ∈ valuesSent (gcMultiprovide w (taskArgsOf c)).1, x = 0) ∧
      (∀ g, Instantiated w (taskArgsOf c) g →
        valuesSent (gcMultiprovide w (taskArgsOf c)).1 = [0])) := by
  constructor
  · intro w a negative whole fraction hw hfunds hdec
    have hv := ethers.parseEther_decimal negative whole fraction hdec
    rw [← hfunds, ← hw] at hv
    exact ⟨_, wei_eq_decimalValue negative whole fraction hdec,
      valuesSent_gcMultiprovide hv⟩
  · intro w c hw hc
    have hv : w.parseEther (taskArgsOf c).funds = .ok 0 := by
      rw [hw]
      simp only [taskArgsOf, hc, Option.getD_none]
      rfl
    exact valuesSent_gcMultiprovide hv

/-- Funds "1.5" are sent as 1500000000000000000 wei, and absent funds as 0
wei. -/
theorem multiProvide_value_is_funds_in_wei_witness :
    decimalString false ['1'] (some ['5']) = "1.5" ∧
    decimalValue false ['1'] (some ['5']) = 3 / 2 ∧
    valuesSent (gcMultiprovide (sampleWorld sampleSigners)
      (taskArgsOf (sampleCli false (some "1.5")))).1 = [1500000000000000000] ∧
    valuesSent (gcMultiprovide (sampleWorld sampleSigners)
      (taskArgsOf (sampleCli false none))).1 = [0] := by
  have hd : decimalValue false ['1'] (some ['5']) = 3 / 2 := by
    norm_num [decimalValue, wholePartValue, fractionPartValue, digitOf]
  obtain ⟨v, hv, _, hsent⟩ := multiProvide_value_is_funds_in_wei.1 (sampleWorld sampleSigners)
    (taskArgsOf (sampleCli false (some "1.5"))) false ['1'] (some ['5']) rfl rfl
    ⟨by decide, by decide, by decide, Or.inl (by decide)⟩
  have hval : v = 1500000000000000000 := by
    have hq : (v : ℚ) = ((1500000000000000000 : Int) : ℚ) := by
      rw [hv, hd]
      norm_num
    exact_mod_cast hq
  refine ⟨rfl, hd, ?_, ?_⟩
  · rw [hsent ⟨"0xC0"⟩ ⟨⟨"0x03"⟩, ⟨sampleSigners, rfl, rfl⟩, rfl⟩, hval]
  · exact (multiProvide_value_is_funds_in_wei.2 (sampleWorld sampleSigners)
      (sampleCli false none) rfl rfl).2 ⟨"0xC0"⟩ ⟨⟨"0x03"⟩, ⟨sampleSigners, rfl, rfl⟩, rfl⟩

end Gelato
